import Mathlib

/-!
Verification of the Zodiac-Art chart rendering and auto-layout engine.

This file gives a shallow embedding, in Lean 4, of the parts of the
repository `zodiac-art` that the checked claims are about:

* geometry primitives (`zodiac_art/utils/math_utils.py`,
  `zodiac_art/renderer/geometry.py`),
* the auto-layout resolver (`zodiac_art/api/rendering.py`, functions
  `_position_for_element`, `_overlaps_by_distance`, `_required_inward_shift`
  and `_compute_auto_layout_overrides_from_meta`),
* the render-cache key construction and the module level SVG/PNG caches
  (`zodiac_art/api/rendering.py`),
* the frame-circle construction (`zodiac_art/api/rendering.py`,
  `_frame_circle_from_layout`, against the `FrameCircle` dataclass of
  `zodiac_art/renderer/svg_chart.py`),
* the compositor (`zodiac_art/compositor/compositor.py`).

Python floats are modelled as real numbers; JSON payload numbers are
modelled as rationals.  External calls (XML parsing, file reads) are
modelled as explicit oracle arguments.
-/

open Real

noncomputable section

/-! ## Geometry primitives

`zodiac_art/utils/math_utils.py` and `zodiac_art/renderer/geometry.py`. -/

/-- Truncation toward zero of a real number, the rounding used by C `fmod`. -/
def rtrunc (x : ℝ) : ℤ := if 0 ≤ x then ⌊x⌋ else ⌈x⌉

/-- `math.fmod(x, y)`: remainder of `x / y` with the quotient truncated
toward zero, so that the result carries the sign of `x`. -/
def pyfmod (x y : ℝ) : ℝ := x - y * rtrunc (x / y)

/-- Python's float `%` operator: remainder with the quotient floored, so
that the result carries the sign of `y`. -/
def pymod (x y : ℝ) : ℝ := x - y * ⌊x / y⌋

/-- `normalize_degrees` from `zodiac_art/utils/math_utils.py`:

    result = fmod(value, 360.0)
    return result + 360.0 if result < 0 else result
-/
def normalize_degrees (value : ℝ) : ℝ :=
  let result := pyfmod value 360
  if result < 0 then result + 360 else result

/-- `longitude_to_angle` from `zodiac_art/renderer/geometry.py`:
`normalize_degrees(longitude_deg - 90.0)`. -/
def longitude_to_angle (longitude_deg : ℝ) : ℝ :=
  normalize_degrees (longitude_deg - 90)

/-- `math.radians`. -/
def radiansOf (deg : ℝ) : ℝ := deg * (Real.pi / 180)

/-- `math.degrees`. -/
def degreesOf (rad : ℝ) : ℝ := rad * (180 / Real.pi)

/-- `math.hypot`. -/
def pyhypot (x y : ℝ) : ℝ := Real.sqrt (x ^ 2 + y ^ 2)

/-- `polar_to_cartesian` from `zodiac_art/renderer/geometry.py`. -/
def polar_to_cartesian (center_x center_y radius angle_deg : ℝ) : ℝ × ℝ :=
  let angle_rad := radiansOf angle_deg
  (center_x + radius * Real.cos angle_rad, center_y + radius * Real.sin angle_rad)

/-- Modelled from the spec: `polar_offset_to_xy` is imported from
`zodiac_art.renderer.geometry` by `svg_chart.py`, `rendering.py` and the
auto-layout smoke test, but the function itself is missing from the copy of
`geometry.py` under `src/`.  Spec §4.1: "polarOffsetToXY(dr,dt,angle):
decomposes a radial+tangential displacement into Cartesian dx,dy aligned to
that element's own ring-angle radial direction".  The radial direction at
ring angle `angle_deg` is `(cos a, sin a)` (the direction in which
`polar_to_cartesian` moves when the radius grows) and the tangential
direction is the perpendicular `(-sin a, cos a)`. -/
def polar_offset_to_xy (dr dt angle_deg : ℝ) : ℝ × ℝ :=
  let a := radiansOf angle_deg
  (dr * Real.cos a - dt * Real.sin a, dr * Real.sin a + dt * Real.cos a)

/-! ### Facts about `normalize_degrees` -/

/-- `normalize_degrees` agrees with the floor-based reduction modulo 360. -/
theorem normalize_degrees_eq_fract (v : ℝ) :
    normalize_degrees v = 360 * Int.fract (v / 360) := by
  have hv : v = 360 * (v / 360) := by ring
  unfold normalize_degrees pyfmod rtrunc
  set q := v / 360 with hq
  by_cases h : 0 ≤ q
  · rw [if_pos h]
    have hfr : v - 360 * (⌊q⌋ : ℝ) = 360 * Int.fract q := by
      rw [Int.fract]; nlinarith
    rw [if_neg (by rw [hfr]; nlinarith [Int.fract_nonneg q]), hfr]
  · rw [if_neg h]
    rcases Int.fract_eq_zero_or_add_one_sub_ceil q with hz | hc
    · have hfl : (⌊q⌋ : ℝ) = q := by
        have := Int.self_sub_fract q
        rw [hz, sub_zero] at this
        exact this.symm
      have hceil : (⌈q⌉ : ℝ) = q := by
        rw [← hfl, Int.ceil_intCast, hfl]
      have hmain : v - 360 * (⌈q⌉ : ℝ) = 0 := by rw [hceil]; nlinarith
      rw [hmain, if_neg (by norm_num), hz, mul_zero]
    · have hceil : (⌈q⌉ : ℝ) = q + 1 - Int.fract q := by
        rw [hc]; ring
      have hlt : v - 360 * (⌈q⌉ : ℝ) < 0 := by
        rw [hceil]
        nlinarith [Int.fract_lt_one q]
      rw [if_pos hlt, hceil]
      nlinarith [Int.fract_lt_one q]

/-- C8: `normalize_degrees` maps every real into `[0, 360)` and is invariant
under adding integer multiples of 360. -/
theorem normalize_degrees_range_and_period :
    (∀ v : ℝ, 0 ≤ normalize_degrees v ∧ normalize_degrees v < 360) ∧
      (∀ (v : ℝ) (k : ℤ), normalize_degrees (v + 360 * k) = normalize_degrees v) := by
  constructor
  · intro v
    rw [normalize_degrees_eq_fract]
    constructor
    · nlinarith [Int.fract_nonneg (v / 360)]
    · nlinarith [Int.fract_lt_one (v / 360)]
  · intro v k
    rw [normalize_degrees_eq_fract, normalize_degrees_eq_fract]
    have harg : (v + 360 * k) / 360 = v / 360 + (k : ℝ) := by ring
    rw [harg, Int.fract_add_int]

/-- C2: adding the radial offset `polar_offset_to_xy dr 0 θ` to
`polar_to_cartesian cx cy r θ` lands exactly on
`polar_to_cartesian cx cy (r + dr) θ`; the floating round-trip of the spec is
exact in the real-number model. -/
theorem polar_offset_roundtrip (cx cy r θ dr : ℝ) :
    ((polar_to_cartesian cx cy r θ).1 + (polar_offset_to_xy dr 0 θ).1,
      (polar_to_cartesian cx cy r θ).2 + (polar_offset_to_xy dr 0 θ).2) =
      polar_to_cartesian cx cy (r + dr) θ := by
  unfold polar_to_cartesian polar_offset_to_xy
  simp only [Prod.mk.injEq]
  constructor <;> ring

/-! ## Auto-layout resolver

`zodiac_art/api/rendering.py`, lines 636-777.  The resolver works on
`AutoLayoutElement` records; `_compute_auto_layout_overrides_from_meta`
builds one element per planet, sorts them by `(theta_deg, element_id)` and
runs a single greedy inward-collapse pass. -/

/-- `AutoLayoutElement` dataclass from `zodiac_art/api/rendering.py`. -/
structure AutoLayoutElement where
  element_id : String
  theta_deg : ℝ
  base_x : ℝ
  base_y : ℝ
  width : ℝ
  height : ℝ

/-- `_position_for_element`: the element's base position displaced by the
polar offset `(dr, dt)` taken at the element's own ring angle. -/
def position_for_element (e : AutoLayoutElement) (dr dt : ℝ) : ℝ × ℝ :=
  let d := polar_offset_to_xy dr dt e.theta_deg
  (e.base_x + d.1, e.base_y + d.2)

/-- The wrapped angular separation `abs((a - b + 180.0) % 360.0 - 180.0)`
used by the pre-filter in `_overlaps_by_distance`. -/
def angle_delta (a b : ℝ) : ℝ := |pymod (a - b + 180) 360 - 180|

/-- `_overlaps_by_distance`: the two effective circles intersect (beyond the
tolerance), unless the angular-proximity pre-filter rejects the pair first.
The Python early `return False` when `angle_delta > angle_threshold` becomes
the first conjunct. -/
def overlaps_by_distance (e : AutoLayoutElement) (dr : ℝ) (o : AutoLayoutElement)
    (other_dr min_gap_px ring_radius radius_scale : ℝ) : Prop :=
  let p := position_for_element e dr 0
  let q := position_for_element o other_dr 0
  let radius := max e.width e.height / 2 * radius_scale
  let other_radius := max o.width o.height / 2 * radius_scale
  let min_distance := radius + other_radius + min_gap_px
  let tolerance := max 3 (min_gap_px * 0.5)
  (0 < ring_radius →
      angle_delta e.theta_deg o.theta_deg ≤ degreesOf (min_distance / ring_radius)) ∧
    pyhypot (p.1 - q.1) (p.2 - q.2) < min_distance - tolerance

open Classical in
/-- `_required_inward_shift`: `none` when the pair does not overlap at the
current shift, otherwise the inward root of the 1-D quadratic (falling back
to `current_dr - 1.0` when there is no real root or the root is not an
improvement). -/
def required_inward_shift (e : AutoLayoutElement) (current_dr : ℝ)
    (o : AutoLayoutElement) (other_dr min_gap_px ring_radius radius_scale : ℝ) :
    Option ℝ :=
  if ¬ overlaps_by_distance e current_dr o other_dr min_gap_px ring_radius radius_scale then
    none
  else
    let bp := position_for_element e 0 0
    let op := position_for_element o other_dr 0
    let radius := max e.width e.height / 2 * radius_scale
    let other_radius := max o.width o.height / 2 * radius_scale
    let min_distance := radius + other_radius + min_gap_px
    let dx := bp.1 - op.1
    let dy := bp.2 - op.2
    let u := polar_offset_to_xy 1 0 e.theta_deg
    let b := dx * u.1 + dy * u.2
    let c := dx * dx + dy * dy - min_distance * min_distance
    let discriminant := b * b - c
    if discriminant ≤ 0 then some (current_dr - 1)
    else
      let root := Real.sqrt discriminant
      let r1 := -b - root
      if r1 ≥ current_dr then some (current_dr - 1) else some r1

/-- The inner `for other in placed` loop of
`_compute_auto_layout_overrides_from_meta`: fold the candidate shifts over
the already-placed elements, starting from the element's current shift. -/
def fold_required_dr (e : AutoLayoutElement) (drv : String → ℝ)
    (min_gap_px ring_radius radius_scale : ℝ) :
    List AutoLayoutElement → ℝ → ℝ
  | [], required_dr => required_dr
  | other :: rest, required_dr =>
    let next :=
      match required_inward_shift e required_dr other (drv other.element_id)
          min_gap_px ring_radius radius_scale with
      | none => required_dr
      | some candidate => min required_dr candidate
    fold_required_dr e drv min_gap_px ring_radius radius_scale rest next

open Classical in
/-- The outer `for element in elements` loop of
`_compute_auto_layout_overrides_from_meta`: process each element in order
against the already-placed ones, clamp the shift to the inward floor, record
it in `dr_values` and append the element to `placed`. -/
def resolve_dr_values (min_gap_px ring_radius radius_scale dr_floor : ℝ) :
    List AutoLayoutElement → List AutoLayoutElement → (String → ℝ) → (String → ℝ)
  | [], _, drv => drv
  | e :: rest, placed, drv =>
    let required := fold_required_dr e drv min_gap_px ring_radius radius_scale
      placed (drv e.element_id)
    let clamped := if required < dr_floor then dr_floor else required
    resolve_dr_values min_gap_px ring_radius radius_scale dr_floor rest
      (placed ++ [e]) (fun id => if id = e.element_id then clamped else drv id)

/-- One entry `{"dr": ..., "dt": ...}` of the resolver's override map. -/
structure DrDt where
  dr : ℝ
  dt : ℝ

open Classical in
/-- The pixel gap derived in `_compute_auto_layout_overrides_from_meta`:
`gap_ratio = min_gap_px / glyph_font_base if min_gap_px > 0 else 0.0`
(with `glyph_font_base = 60.0`) and `gap_px = glyph_font * gap_ratio`. -/
def resolver_gap_px (glyph_font min_gap_px : ℝ) : ℝ :=
  glyph_font * (if 0 < min_gap_px then min_gap_px / 60 else 0)

open Classical in
/-- The body of `_compute_auto_layout_overrides_from_meta` from the point
where the per-planet elements exist, taking the sorted element list: derive
the gap, the inward floor (`dr_min = -120.0`,
`max_inward_shift = -0.4 * glyph_font`) and the shared
`radius_scale = 0.85`, run the greedy pass, and emit the sparse override map
omitting zero shifts.  `glyph_font` is `60.0 * settings.font_scale` and
`ring_radius` is `settings.radius * settings.planet_ring_ratio` at the call
site. -/
def auto_layout_overrides (sorted_elements : List AutoLayoutElement)
    (glyph_font min_gap_px ring_radius : ℝ) : List (String × DrDt) :=
  let dr_min : ℝ := -120
  let max_inward_shift := -0.4 * glyph_font
  let gap_px := resolver_gap_px glyph_font min_gap_px
  let radius_scale : ℝ := 0.85
  let dr_floor := max dr_min max_inward_shift
  let drv := resolve_dr_values gap_px ring_radius radius_scale dr_floor
    sorted_elements [] (fun _ => 0)
  (sorted_elements.filter (fun e => drv e.element_id ≠ 0)).map
    (fun e => (e.element_id, ⟨drv e.element_id, 0⟩))

/-- The per-planet element construction inside
`_compute_auto_layout_overrides_from_meta` (lines 717-736): the glyph sits on
the planet ring at the planet's chart angle, with a square
`glyph_font * 0.95` bounding box. -/
def planet_element (name : String) (longitude cx cy ring_radius glyph_font : ℝ) :
    AutoLayoutElement :=
  let angle := longitude_to_angle longitude
  let pos := polar_to_cartesian cx cy ring_radius angle
  { element_id := "planet." ++ name ++ ".glyph"
    theta_deg := angle
    base_x := pos.1
    base_y := pos.2
    width := glyph_font * 0.95
    height := glyph_font * 0.95 }

/-- Look up an element's resolved `{dr, dt}` in an override map, defaulting
to a zero shift when the element has no entry. -/
def dr_dt_of (overrides : List (String × DrDt)) (id : String) : DrDt :=
  match overrides.find? (fun p => p.1 = id) with
  | some p => p.2
  | none => ⟨0, 0⟩

/-- Apply a resolved override map to the elements' base positions, the way
the renderer applies `dr`/`dt` overrides (via `position_for_element`, i.e.
`polar_offset_to_xy` at the element's own ring angle); used to state the
idempotence claim about re-running the resolver on resolved positions. -/
def apply_overrides (elements : List AutoLayoutElement)
    (overrides : List (String × DrDt)) : List AutoLayoutElement :=
  elements.map fun e =>
    let o := dr_dt_of overrides e.element_id
    let p := position_for_element e o.dr o.dt
    { e with base_x := p.1, base_y := p.2 }

/-! ### Core lemmas about the resolver loop -/

/-- The wrapped angular separation of an angle with itself is zero. -/
theorem angle_delta_self (a : ℝ) : angle_delta a a = 0 := by
  unfold angle_delta pymod
  have h1 : a - a + 180 = (180 : ℝ) := by ring
  rw [h1]
  have h2 : ⌊(180 : ℝ) / 360⌋ = 0 := by
    rw [Int.floor_eq_zero_iff]
    constructor <;> norm_num
  rw [h2]
  norm_num

/-- The candidate fold never increases the current shift. -/
theorem fold_required_dr_le (e : AutoLayoutElement) (drv : String → ℝ)
    (g rr rs : ℝ) (placed : List AutoLayoutElement) (acc : ℝ) :
    fold_required_dr e drv g rr rs placed acc ≤ acc := by
  induction placed generalizing acc with
  | nil => exact le_refl _
  | cons o rest ih =>
    cases hc : required_inward_shift e acc o (drv o.element_id) g rr rs with
    | none =>
      calc fold_required_dr e drv g rr rs (o :: rest) acc
          = fold_required_dr e drv g rr rs rest acc := by
            simp [fold_required_dr, hc]
        _ ≤ acc := ih acc
    | some c =>
      calc fold_required_dr e drv g rr rs (o :: rest) acc
          = fold_required_dr e drv g rr rs rest (min acc c) := by
            simp [fold_required_dr, hc]
        _ ≤ min acc c := ih _
        _ ≤ acc := min_le_left _ _

/-- When the element overlaps no placed element at shift 0, the candidate
fold keeps the zero shift. -/
theorem fold_required_dr_zero (e : AutoLayoutElement) (drv : String → ℝ)
    (g rr rs : ℝ) (placed : List AutoLayoutElement)
    (h : ∀ o ∈ placed, ¬ overlaps_by_distance e 0 o (drv o.element_id) g rr rs) :
    fold_required_dr e drv g rr rs placed 0 = 0 := by
  induction placed with
  | nil => rfl
  | cons o rest ih =>
    have hno : required_inward_shift e 0 o (drv o.element_id) g rr rs = none := by
      unfold required_inward_shift
      rw [if_pos (h o (List.mem_cons_self o rest))]
    have step : fold_required_dr e drv g rr rs (o :: rest) 0
        = fold_required_dr e drv g rr rs rest 0 := by
      simp [fold_required_dr, hno]
    rw [step]
    exact ih fun o ho => h o (List.mem_cons_of_mem _ ho)

/-- When the elements are pairwise non-overlapping at zero shift (each later
element against each earlier one, as the greedy pass checks them) and the
inward floor is non-positive, the resolver leaves every shift at zero. -/
theorem resolve_dr_values_zero (g rr rs dr_floor : ℝ) (hfl : dr_floor ≤ 0)
    (elems : List AutoLayoutElement) :
    ∀ (placed : List AutoLayoutElement) (drv : String → ℝ),
      (∀ id, drv id = 0) →
      (∀ e ∈ elems, ∀ o ∈ placed, ¬ overlaps_by_distance e 0 o 0 g rr rs) →
      elems.Pairwise (fun a b => ¬ overlaps_by_distance b 0 a 0 g rr rs) →
      ∀ id, resolve_dr_values g rr rs dr_floor elems placed drv id = 0 := by
  induction elems with
  | nil =>
    intro placed drv hdrv _ _ id
    exact hdrv id
  | cons e rest ih =>
    intro placed drv hdrv hplaced hpair id
    have hfold : fold_required_dr e drv g rr rs placed (drv e.element_id) = 0 := by
      rw [hdrv e.element_id]
      refine fold_required_dr_zero e drv g rr rs placed fun o ho => ?_
      rw [hdrv o.element_id]
      exact hplaced e (List.mem_cons_self e rest) o ho
    have hstep : resolve_dr_values g rr rs dr_floor (e :: rest) placed drv
        = resolve_dr_values g rr rs dr_floor rest (placed ++ [e])
            (fun id => if id = e.element_id then 0 else drv id) := by
      simp only [resolve_dr_values, hfold]
      rw [if_neg (by linarith : ¬ (0 : ℝ) < dr_floor)]
    rw [hstep]
    refine ih (placed ++ [e]) _ ?_ ?_ hpair.of_cons id
    · intro j
      by_cases hj : j = e.element_id <;> simp [hj, hdrv]
    · intro e' he' o ho
      rcases List.mem_append.mp ho with hin | hin
      · exact hplaced e' (List.mem_cons_of_mem _ he') o hin
      · have : o = e := by simpa using hin
        subst this
        exact (List.pairwise_cons.mp hpair).1 e' he'

/-- The resolver keeps every recorded shift inside `[dr_floor, 0]`. -/
theorem resolve_dr_values_bounds (g rr rs dr_floor : ℝ) (hfl : dr_floor ≤ 0)
    (elems : List AutoLayoutElement) :
    ∀ (placed : List AutoLayoutElement) (drv : String → ℝ),
      (∀ id, dr_floor ≤ drv id ∧ drv id ≤ 0) →
      ∀ id, dr_floor ≤ resolve_dr_values g rr rs dr_floor elems placed drv id ∧
        resolve_dr_values g rr rs dr_floor elems placed drv id ≤ 0 := by
  induction elems with
  | nil =>
    intro placed drv hdrv id
    exact hdrv id
  | cons e rest ih =>
    intro placed drv hdrv id
    simp only [resolve_dr_values]
    refine ih (placed ++ [e]) _ ?_ id
    intro j
    by_cases hj : j = e.element_id
    · simp only [hj, if_pos rfl]
      by_cases hclamp :
          fold_required_dr e drv g rr rs placed (drv e.element_id) < dr_floor
      · rw [if_pos hclamp]
        exact ⟨le_refl _, hfl⟩
      · rw [if_neg hclamp]
        push_neg at hclamp
        exact ⟨hclamp,
          le_trans (fold_required_dr_le e drv g rr rs placed (drv e.element_id))
            (hdrv e.element_id).2⟩
    · simp only [if_neg hj]
      exact hdrv j

/-- Loop-model invariants (the analysis behind C7): every entry of the
greedy pass's override map has `dt = 0` and a
strictly negative `dr` no lower than the configured inward floor
`max(-120, -0.4 * glyph_font)`; with no elements the map is empty. -/
theorem auto_layout_overrides_invariants (elements : List AutoLayoutElement)
    (glyph_font min_gap_px ring_radius : ℝ) (hgf : 0 < glyph_font) :
    auto_layout_overrides [] glyph_font min_gap_px ring_radius = [] ∧
      ∀ p ∈ auto_layout_overrides elements glyph_font min_gap_px ring_radius,
        p.2.dt = 0 ∧ p.2.dr < 0 ∧ max (-120 : ℝ) (-0.4 * glyph_font) ≤ p.2.dr := by
  have hfl : max (-120 : ℝ) (-0.4 * glyph_font) ≤ 0 :=
    max_le (by norm_num) (by nlinarith)
  constructor
  · rfl
  · intro p hp
    unfold auto_layout_overrides at hp
    simp only [List.mem_map, List.mem_filter, decide_eq_true_eq] at hp
    obtain ⟨e, ⟨he, hne⟩, rfl⟩ := hp
    have hb := resolve_dr_values_bounds (resolver_gap_px glyph_font min_gap_px)
      ring_radius 0.85 (max (-120) (-0.4 * glyph_font)) hfl elements [] (fun _ => 0)
      (fun _ => ⟨hfl, le_refl 0⟩) e.element_id
    exact ⟨rfl, lt_of_le_of_ne hb.2 hne, hb.1⟩

/-- The loop-model invariants at a concrete one-element chart. -/
theorem auto_layout_overrides_invariants_witness :
    (0 : ℝ) < 60 ∧
      (auto_layout_overrides [] 60 0 1275 = [] ∧
        ∀ p ∈ auto_layout_overrides [planet_element "Mars" 120 1500 1500 1275 60]
            60 0 1275,
          p.2.dt = 0 ∧ p.2.dr < 0 ∧ max (-120 : ℝ) (-0.4 * 60) ≤ p.2.dr) :=
  ⟨by norm_num,
    auto_layout_overrides_invariants [planet_element "Mars" 120 1500 1500 1275 60]
      60 0 1275 (by norm_num)⟩

/-- Loop-model analysis (behind C5): when every pair of elements is
angularly separated by more than the
angle that the minimum separation distance (sum of effective radii plus gap)
subtends at the ring radius, the pre-filter rejects every pair and the
resolver returns the empty override map. -/
theorem auto_layout_far_pairs_empty (elements : List AutoLayoutElement)
    (glyph_font min_gap_px ring_radius : ℝ)
    (hgf : 0 ≤ glyph_font) (hrr : 0 < ring_radius)
    (hfar : elements.Pairwise (fun a b =>
      degreesOf ((max b.width b.height / 2 * 0.85 + max a.width a.height / 2 * 0.85
            + resolver_gap_px glyph_font min_gap_px) / ring_radius)
        < angle_delta b.theta_deg a.theta_deg)) :
    auto_layout_overrides elements glyph_font min_gap_px ring_radius = [] := by
  have hfl : max (-120 : ℝ) (-0.4 * glyph_font) ≤ 0 :=
    max_le (by norm_num) (by nlinarith)
  have hzero := resolve_dr_values_zero (resolver_gap_px glyph_font min_gap_px)
    ring_radius 0.85 (max (-120) (-0.4 * glyph_font)) hfl elements [] (fun _ => 0)
    (fun _ => rfl) (fun e _ o ho => absurd ho (List.not_mem_nil o))
    (hfar.imp fun {a b} hab hov => by
      have hpre := (by simpa only [overlaps_by_distance] using hov :
        ((0 < ring_radius →
            angle_delta b.theta_deg a.theta_deg ≤
              degreesOf ((max b.width b.height / 2 * 0.85
                + max a.width a.height / 2 * 0.85
                + resolver_gap_px glyph_font min_gap_px) / ring_radius)) ∧ _)).1
      exact absurd (hpre hrr) (not_le_of_lt hab))
  unfold auto_layout_overrides
  dsimp only
  rw [List.filter_eq_nil_iff.mpr fun e _ => by simpa using hzero e.element_id,
    List.map_nil]

/-- Angles already in `[0, 360)` are fixed by `normalize_degrees`. -/
theorem normalize_degrees_eq_self (v : ℝ) (h0 : 0 ≤ v) (h1 : v < 360) :
    normalize_degrees v = v := by
  rw [normalize_degrees_eq_fract,
    Int.fract_eq_self.mpr ⟨div_nonneg h0 (by norm_num), (div_lt_one (by norm_num)).mpr h1⟩]
  ring

/-- Longitude 90 renders at chart angle 0. -/
theorem longitude_to_angle_90 : longitude_to_angle 90 = 0 := by
  unfold longitude_to_angle
  rw [show (90 : ℝ) - 90 = 0 by norm_num]
  exact normalize_degrees_eq_self 0 le_rfl (by norm_num)

/-- Longitude 270 renders at chart angle 180. -/
theorem longitude_to_angle_270 : longitude_to_angle 270 = 180 := by
  unfold longitude_to_angle
  rw [show (270 : ℝ) - 90 = 180 by norm_num]
  exact normalize_degrees_eq_self 180 (by norm_num) (by norm_num)

/-- The wrapped separation of diametrically opposite ring angles is 180. -/
theorem angle_delta_180_0 : angle_delta 180 0 = 180 := by
  unfold angle_delta pymod
  rw [show (180 : ℝ) - 0 + 180 = 360 by norm_num, show (360 : ℝ) / 360 = 1 by norm_num,
    Int.floor_one]
  rw [show (360 : ℝ) - 360 * ((1 : ℤ) : ℝ) - 180 = -180 by push_cast; ring, abs_neg,
    abs_of_nonneg (by norm_num : (0 : ℝ) ≤ 180)]

/-- The separated-pair analysis at two planets at longitudes 90 and 270 on
a ring of radius
1500 with 60px glyphs are angularly separated far beyond the overlap
threshold, and the resolver returns the empty map. -/
theorem auto_layout_far_pairs_empty_witness :
    (0 : ℝ) ≤ 60 ∧ (0 : ℝ) < 1500 ∧
      List.Pairwise (fun a b : AutoLayoutElement =>
        degreesOf ((max b.width b.height / 2 * 0.85 + max a.width a.height / 2 * 0.85
              + resolver_gap_px 60 0) / 1500) < angle_delta b.theta_deg a.theta_deg)
        [planet_element "Sun" 90 0 0 1500 60, planet_element "Moon" 270 0 0 1500 60] ∧
      auto_layout_overrides
        [planet_element "Sun" 90 0 0 1500 60, planet_element "Moon" 270 0 0 1500 60]
        60 0 1500 = [] := by
  have hpair : List.Pairwise (fun a b : AutoLayoutElement =>
      degreesOf ((max b.width b.height / 2 * 0.85 + max a.width a.height / 2 * 0.85
            + resolver_gap_px 60 0) / 1500) < angle_delta b.theta_deg a.theta_deg)
      [planet_element "Sun" 90 0 0 1500 60, planet_element "Moon" 270 0 0 1500 60] := by
    refine List.pairwise_cons.mpr ⟨?_, List.pairwise_singleton _ _⟩
    intro b hb
    rw [List.mem_singleton] at hb
    subst hb
    dsimp only [planet_element]
    rw [longitude_to_angle_90, longitude_to_angle_270, angle_delta_180_0,
      show resolver_gap_px 60 0 = 0 from by simp [resolver_gap_px], max_self]
    unfold degreesOf
    have hπ3 := Real.pi_gt_three
    have hπ0 := Real.pi_pos
    have ht : 180 / Real.pi < 60 := by rw [div_lt_iff hπ0]; nlinarith
    have ht0 : 0 < 180 / Real.pi := by positivity
    nlinarith
  exact ⟨by norm_num, by norm_num, hpair,
    auto_layout_far_pairs_empty _ 60 0 1500 (by norm_num) (by norm_num) hpair⟩

open Classical in
/-- Two elements at the same ring angle and base position: the resolver
leaves the first processed element at zero shift and clamps the second to
the inward floor (the unclamped quadratic solve, at minus the full minimum
separation distance, always undershoots the floor here). -/
theorem resolve_two_coincident (e1 e2 : AutoLayoutElement) (gf mg rr : ℝ)
    (hid : e1.element_id ≠ e2.element_id)
    (hθ : e2.theta_deg = e1.theta_deg)
    (hbx : e2.base_x = e1.base_x) (hby : e2.base_y = e1.base_y)
    (hdist : max 3 (resolver_gap_px gf mg * 0.5)
        < max e2.width e2.height / 2 * 0.85 + max e1.width e1.height / 2 * 0.85
          + resolver_gap_px gf mg)
    (hfl : max (-120 : ℝ) (-0.4 * gf) < 0)
    (hclamp : -(max e2.width e2.height / 2 * 0.85 + max e1.width e1.height / 2 * 0.85
          + resolver_gap_px gf mg)
        < max (-120 : ℝ) (-0.4 * gf)) :
    auto_layout_overrides [e1, e2] gf mg rr =
      [(e2.element_id, ⟨max (-120 : ℝ) (-0.4 * gf), 0⟩)] := by
  have hM3 : 3 < max e2.width e2.height / 2 * 0.85 + max e1.width e1.height / 2 * 0.85
      + resolver_gap_px gf mg := lt_of_le_of_lt (le_max_left _ _) hdist
  have hp1 : position_for_element e1 0 0 = (e1.base_x, e1.base_y) := by
    simp [position_for_element, polar_offset_to_xy]
  have hp2 : position_for_element e2 0 0 = (e1.base_x, e1.base_y) := by
    simp [position_for_element, polar_offset_to_xy, hbx, hby]
  have hov : overlaps_by_distance e2 0 e1 0 (resolver_gap_px gf mg) rr 0.85 := by
    simp only [overlaps_by_distance, hp1, hp2]
    constructor
    · intro hrrpos
      rw [hθ, angle_delta_self]
      exact mul_nonneg (div_nonneg (by linarith) hrrpos.le) (by positivity)
    · simp only [sub_self, pyhypot]
      rw [show (0 : ℝ) ^ 2 + 0 ^ 2 = 0 by norm_num, Real.sqrt_zero]
      linarith
  have hshift : required_inward_shift e2 0 e1 0 (resolver_gap_px gf mg) rr 0.85
      = some (-(max e2.width e2.height / 2 * 0.85 + max e1.width e1.height / 2 * 0.85
          + resolver_gap_px gf mg)) := by
    unfold required_inward_shift
    rw [if_neg (not_not_intro hov)]
    simp only [hp1, hp2, sub_self, zero_mul, mul_zero, add_zero, zero_add, zero_sub,
      sub_neg_eq_add, neg_zero]
    rw [Real.sqrt_mul_self (by linarith)]
    rw [if_neg (not_le.mpr (by nlinarith)), if_neg (not_le.mpr (by linarith))]
  have hdrv2 : ∀ id, resolve_dr_values (resolver_gap_px gf mg) rr 0.85
      (max (-120 : ℝ) (-0.4 * gf)) [e1, e2] [] (fun _ => 0) id
      = if id = e2.element_id then max (-120 : ℝ) (-0.4 * gf) else 0 := by
    intro id
    simp only [resolve_dr_values, fold_required_dr, if_neg (not_lt.mpr hfl.le), ite_self,
      hshift,
      min_eq_right (show -(max e2.width e2.height / 2 * 0.85
          + max e1.width e1.height / 2 * 0.85 + resolver_gap_px gf mg) ≤ 0 by linarith),
      if_pos hclamp]
  unfold auto_layout_overrides
  dsimp only
  rw [List.filter_cons, List.filter_cons, List.filter_nil]
  simp only [hdrv2]
  rw [if_neg hid]
  have hne0 : max (-120 : ℝ) (-(0.4 * gf)) ≠ 0 := by simpa using hfl.ne
  simp [hne0]

/-- The derived pixel gap is non-negative for non-negative glyph size and
configured gap. -/
theorem resolver_gap_px_nonneg (gf mg : ℝ) (hgf : 0 ≤ gf) :
    0 ≤ resolver_gap_px gf mg := by
  unfold resolver_gap_px
  split_ifs with h
  · exact mul_nonneg hgf (div_nonneg h.le (by norm_num))
  · simp

/-- Loop-model analysis (behind C1): two identical-size planets at the
identical ring angle
yield exactly one non-zero override, assigned to the later-sorted element
with `dt = 0`; but its `dr` magnitude is the inward floor
`min(120, 0.4 * glyph_font)` — the unclamped quadratic solve
`-(2 * effective_radius + gap)` always exceeds the floor here (its magnitude
is `0.8075 * glyph_font + gap > 0.4 * glyph_font`), so the clamp of
`_compute_auto_layout_overrides_from_meta` always replaces it.  The
earlier-sorted element keeps `dr = 0` (and is omitted from the map). -/
theorem auto_layout_coincident_pair_floor_clamped
    (n1 n2 : String) (lon cx cy rr gf mg : ℝ)
    (hgf : 0 < gf)
    (hsort : ("planet." ++ n1 ++ ".glyph" : String) < "planet." ++ n2 ++ ".glyph")
    (hbig : 3 < gf * 0.95 * 0.85) :
    auto_layout_overrides
      [planet_element n1 lon cx cy rr gf, planet_element n2 lon cx cy rr gf]
      gf mg rr =
      [("planet." ++ n2 ++ ".glyph", ⟨max (-120 : ℝ) (-0.4 * gf), 0⟩)] := by
  have hgp : 0 ≤ resolver_gap_px gf mg := resolver_gap_px_nonneg gf mg hgf.le
  refine resolve_two_coincident (planet_element n1 lon cx cy rr gf)
    (planet_element n2 lon cx cy rr gf) gf mg rr (ne_of_lt hsort) rfl rfl rfl ?_ ?_ ?_
  · show max 3 (resolver_gap_px gf mg * 0.5)
        < max (gf * 0.95) (gf * 0.95) / 2 * 0.85 + max (gf * 0.95) (gf * 0.95) / 2 * 0.85
          + resolver_gap_px gf mg
    rw [max_self]
    exact max_lt (by nlinarith) (by nlinarith)
  · exact max_lt (by norm_num) (by nlinarith)
  · show -(max (gf * 0.95) (gf * 0.95) / 2 * 0.85 + max (gf * 0.95) (gf * 0.95) / 2 * 0.85
        + resolver_gap_px gf mg) < max (-120 : ℝ) (-0.4 * gf)
    rw [max_self]
    exact lt_max_iff.mpr (Or.inr (by nlinarith))

/-- The floor-clamp analysis at two concrete identical planets. -/
theorem auto_layout_coincident_pair_floor_clamped_witness :
    ((0 : ℝ) < 60 ∧
        ("planet." ++ "A" ++ ".glyph" : String) < "planet." ++ "B" ++ ".glyph" ∧
        (3 : ℝ) < 60 * 0.95 * 0.85) ∧
      auto_layout_overrides
        [planet_element "A" 90 0 0 100 60, planet_element "B" 90 0 0 100 60] 60 0 100 =
        [("planet." ++ "B" ++ ".glyph", ⟨max (-120 : ℝ) (-0.4 * 60), 0⟩)] :=
  ⟨⟨by norm_num, by rw [String.lt_iff_toList_lt]; decide, by norm_num⟩,
    auto_layout_coincident_pair_floor_clamped "A" "B" 90 0 0 100 60 0
      (by norm_num) (by rw [String.lt_iff_toList_lt]; decide) (by norm_num)⟩

/-- Loop-model evaluation (behind C1): two identical 60px planets at the
same chart angle
(effective radius `60*0.95/2*0.85 = 24.225`, gap 0).  The resolver returns
`dr = -24` (the floor `max(-120, -0.4*60)`), whose magnitude is NOT the
claimed `2 * effective_radius + gap = 48.45`. -/
theorem auto_layout_coincident_pair_counterexample :
    auto_layout_overrides
      [planet_element "A" 90 0 0 100 60, planet_element "B" 90 0 0 100 60] 60 0 100 =
      [("planet.B.glyph", ⟨-24, 0⟩)] ∧
    (-24 : ℝ) ≠ -(2 * (60 * 0.95 / 2 * 0.85) + resolver_gap_px 60 0) := by
  have hgp0 : resolver_gap_px 60 0 = 0 := by
    rw [resolver_gap_px, if_neg (lt_irrefl (0 : ℝ)), mul_zero]
  have hmax : max (-120 : ℝ) (-0.4 * 60) = -24 := by
    rw [show (-0.4 * 60 : ℝ) = -24 by norm_num]
    exact max_eq_right (by norm_num)
  constructor
  · refine (resolve_two_coincident (planet_element "A" 90 0 0 100 60)
        (planet_element "B" 90 0 0 100 60) 60 0 100 (by decide) rfl rfl rfl
        ?_ ?_ ?_).trans ?_
    · show max 3 (resolver_gap_px 60 0 * 0.5)
          < max (60 * 0.95) (60 * 0.95) / 2 * 0.85
            + max (60 * 0.95) (60 * 0.95) / 2 * 0.85 + resolver_gap_px 60 0
      rw [hgp0, zero_mul, max_self, max_eq_left (by norm_num : (0 : ℝ) ≤ 3)]
      norm_num
    · exact max_lt (by norm_num) (by norm_num)
    · show -(max (60 * 0.95) (60 * 0.95) / 2 * 0.85
            + max (60 * 0.95) (60 * 0.95) / 2 * 0.85 + resolver_gap_px 60 0)
          < max (-120 : ℝ) (-0.4 * 60)
      rw [hgp0, max_self]
      exact lt_max_iff.mpr (Or.inr (by norm_num))
    · rw [hmax]
      rfl
  · rw [hgp0]
    norm_num

/-- Pairwise non-overlap (each later element against each earlier one, at
zero shift) makes the resolver return the empty override map. -/
theorem auto_layout_overrides_eq_nil_of_separated (elements : List AutoLayoutElement)
    (gf mg rr : ℝ) (hgf : 0 ≤ gf)
    (hsep : elements.Pairwise
      (fun a b => ¬ overlaps_by_distance b 0 a 0 (resolver_gap_px gf mg) rr 0.85)) :
    auto_layout_overrides elements gf mg rr = [] := by
  have hfl : max (-120 : ℝ) (-0.4 * gf) ≤ 0 :=
    max_le (by norm_num) (by nlinarith)
  have hzero := resolve_dr_values_zero (resolver_gap_px gf mg) rr 0.85
    (max (-120) (-0.4 * gf)) hfl elements [] (fun _ => 0) (fun _ => rfl)
    (fun e _ o ho => absurd ho (List.not_mem_nil o)) hsep
  unfold auto_layout_overrides
  dsimp only
  rw [List.filter_eq_nil_iff.mpr fun e _ => by simpa using hzero e.element_id,
    List.map_nil]

/-- Loop-model analysis (behind C6): re-running the greedy pass, with the
previously resolved
positions as the new base, yields zero additional shift WHENEVER those
resolved positions are pairwise non-overlapping under the resolver's own
distance test.  (When the inward floor clamps a shift, residual overlap can
remain and the re-run shifts again — see the counterexample.) -/
theorem auto_layout_rerun_empty_of_separated (elements : List AutoLayoutElement)
    (gf mg rr : ℝ) (hgf : 0 ≤ gf)
    (hsep : (apply_overrides elements
        (auto_layout_overrides elements gf mg rr)).Pairwise
      (fun a b => ¬ overlaps_by_distance b 0 a 0 (resolver_gap_px gf mg) rr 0.85)) :
    auto_layout_overrides
      (apply_overrides elements (auto_layout_overrides elements gf mg rr))
      gf mg rr = [] :=
  auto_layout_overrides_eq_nil_of_separated _ gf mg rr hgf hsep

/-- The separated re-run analysis at a concrete one-planet chart. -/
theorem auto_layout_rerun_empty_of_separated_witness :
    (0 : ℝ) ≤ 60 ∧
      (apply_overrides [planet_element "Sun" 90 0 0 100 60]
          (auto_layout_overrides [planet_element "Sun" 90 0 0 100 60] 60 0 100)).Pairwise
        (fun a b => ¬ overlaps_by_distance b 0 a 0 (resolver_gap_px 60 0) 100 0.85) ∧
      auto_layout_overrides
        (apply_overrides [planet_element "Sun" 90 0 0 100 60]
          (auto_layout_overrides [planet_element "Sun" 90 0 0 100 60] 60 0 100))
        60 0 100 = [] := by
  have hsep : (apply_overrides [planet_element "Sun" 90 0 0 100 60]
      (auto_layout_overrides [planet_element "Sun" 90 0 0 100 60] 60 0 100)).Pairwise
      (fun a b => ¬ overlaps_by_distance b 0 a 0 (resolver_gap_px 60 0) 100 0.85) := by
    unfold apply_overrides
    exact List.pairwise_map.mpr (List.pairwise_singleton _ _)
  exact ⟨by norm_num, hsep,
    auto_layout_rerun_empty_of_separated [planet_element "Sun" 90 0 0 100 60]
      60 0 100 (by norm_num) hsep⟩

/-- Literal form of the 60px planet element "A" at longitude 90 on a ring of
radius 100 centered at the origin. -/
theorem planet_A_eval :
    planet_element "A" 90 0 0 100 60 =
      ⟨"planet.A.glyph", 0, 100, 0, 57, 57⟩ := by
  unfold planet_element polar_to_cartesian
  rw [longitude_to_angle_90]
  simp only [radiansOf, zero_mul, Real.cos_zero, Real.sin_zero, mul_one, mul_zero,
    zero_add, add_zero, AutoLayoutElement.mk.injEq]
  norm_num
  rfl

/-- Literal form of the 60px planet element "B" at longitude 90 on a ring of
radius 100 centered at the origin. -/
theorem planet_B_eval :
    planet_element "B" 90 0 0 100 60 =
      ⟨"planet.B.glyph", 0, 100, 0, 57, 57⟩ := by
  unfold planet_element polar_to_cartesian
  rw [longitude_to_angle_90]
  simp only [radiansOf, zero_mul, Real.cos_zero, Real.sin_zero, mul_one, mul_zero,
    zero_add, add_zero, AutoLayoutElement.mk.injEq]
  norm_num
  rfl

/-- Applying the first-run override map moves element "B" 24px inward and
leaves "A" in place. -/
theorem rerun_elements_eval :
    apply_overrides
      [planet_element "A" 90 0 0 100 60, planet_element "B" 90 0 0 100 60]
      [("planet.B.glyph", (⟨-24, 0⟩ : DrDt))] =
      [⟨"planet.A.glyph", 0, 100, 0, 57, 57⟩, ⟨"planet.B.glyph", 0, 76, 0, 57, 57⟩] := by
  rw [planet_A_eval, planet_B_eval]
  have hfA : dr_dt_of [("planet.B.glyph", (⟨-24, 0⟩ : DrDt))] "planet.A.glyph"
      = ⟨0, 0⟩ := by
    unfold dr_dt_of
    rw [List.find?_cons_of_neg _ (by decide), List.find?_nil]
  have hfB : dr_dt_of [("planet.B.glyph", (⟨-24, 0⟩ : DrDt))] "planet.B.glyph"
      = ⟨-24, 0⟩ := by
    unfold dr_dt_of
    rw [List.find?_cons_of_pos _ (by decide)]
  unfold apply_overrides
  simp only [List.map_cons, List.map_nil, hfA, hfB]
  unfold position_for_element polar_offset_to_xy
  simp only [radiansOf, zero_mul, Real.cos_zero, Real.sin_zero, mul_one, mul_zero,
    zero_add, add_zero, AutoLayoutElement.mk.injEq, List.cons.injEq, and_true,
    List.cons_ne_nil]
  norm_num

/-- First resolver run for the two coincident planets: "B" is clamped to the
floor `-24`. -/
theorem coincident_pair_run1 :
    auto_layout_overrides
      [planet_element "A" 90 0 0 100 60, planet_element "B" 90 0 0 100 60] 60 0 100 =
      [("planet.B.glyph", ⟨-24, 0⟩)] := by
  have hgp0 : resolver_gap_px 60 0 = 0 := by
    rw [resolver_gap_px, if_neg (lt_irrefl (0 : ℝ)), mul_zero]
  have hmax : max (-120 : ℝ) (-0.4 * 60) = -24 := by
    rw [show (-0.4 * 60 : ℝ) = -24 by norm_num]
    exact max_eq_right (by norm_num)
  refine (resolve_two_coincident (planet_element "A" 90 0 0 100 60)
      (planet_element "B" 90 0 0 100 60) 60 0 100 (by decide) rfl rfl rfl
      ?_ ?_ ?_).trans ?_
  · show max 3 (resolver_gap_px 60 0 * 0.5)
        < max (60 * 0.95) (60 * 0.95) / 2 * 0.85
          + max (60 * 0.95) (60 * 0.95) / 2 * 0.85 + resolver_gap_px 60 0
    rw [hgp0, zero_mul, max_self, max_eq_left (by norm_num : (0 : ℝ) ≤ 3)]
    norm_num
  · exact max_lt (by norm_num) (by norm_num)
  · show -(max (60 * 0.95) (60 * 0.95) / 2 * 0.85
          + max (60 * 0.95) (60 * 0.95) / 2 * 0.85 + resolver_gap_px 60 0)
        < max (-120 : ℝ) (-0.4 * 60)
    rw [hgp0, max_self]
    exact lt_max_iff.mpr (Or.inr (by norm_num))
  · rw [hmax]
    rfl

/-- Second resolver run, on the shifted positions: "B" at distance 24 from
"A" still overlaps (minimum separation 48.45, tolerance 3), the quadratic
solve asks for `-24.45`, and the clamp returns `-24` again. -/
theorem coincident_pair_run2 :
    auto_layout_overrides
      [⟨"planet.A.glyph", 0, 100, 0, 57, 57⟩, ⟨"planet.B.glyph", 0, 76, 0, 57, 57⟩]
      60 0 100 = [("planet.B.glyph", ⟨-24, 0⟩)] := by
  have hgp0 : resolver_gap_px 60 0 = 0 := by
    rw [resolver_gap_px, if_neg (lt_irrefl (0 : ℝ)), mul_zero]
  have hp1 : position_for_element ⟨"planet.A.glyph", 0, 100, 0, 57, 57⟩ 0 0
      = (100, 0) := by
    unfold position_for_element polar_offset_to_xy
    simp [radiansOf]
  have hp2 : position_for_element ⟨"planet.B.glyph", 0, 76, 0, 57, 57⟩ 0 0
      = (76, 0) := by
    unfold position_for_element polar_offset_to_xy
    simp [radiansOf]
  have hov : overlaps_by_distance ⟨"planet.B.glyph", 0, 76, 0, 57, 57⟩ 0
      ⟨"planet.A.glyph", 0, 100, 0, 57, 57⟩ 0 (resolver_gap_px 60 0) 100 0.85 := by
    simp only [overlaps_by_distance, hp1, hp2, hgp0, max_self]
    constructor
    · intro _
      rw [angle_delta_self]
      unfold degreesOf
      positivity
    · unfold pyhypot
      rw [show ((76 : ℝ) - 100) ^ 2 + ((0 : ℝ) - 0) ^ 2 = 24 ^ 2 by norm_num,
        Real.sqrt_sq (by norm_num : (0 : ℝ) ≤ 24),
        max_eq_left (by norm_num : (0 : ℝ) * 0.5 ≤ 3)]
      norm_num
  have hshift : required_inward_shift ⟨"planet.B.glyph", 0, 76, 0, 57, 57⟩ 0
      ⟨"planet.A.glyph", 0, 100, 0, 57, 57⟩ 0 (resolver_gap_px 60 0) 100 0.85
      = some (-24.45) := by
    unfold required_inward_shift
    rw [if_neg (not_not_intro hov)]
    simp only [hp1, hp2, hgp0, max_self]
    rw [show polar_offset_to_xy 1 0 (0 : ℝ) = (1, 0) from by
      unfold polar_offset_to_xy; simp [radiansOf]]
    norm_num
    rw [show (938961 : ℝ) = 969 ^ 2 by norm_num,
      Real.sqrt_sq (by norm_num : (0 : ℝ) ≤ 969),
      show (400 : ℝ) = 20 ^ 2 by norm_num,
      Real.sqrt_sq (by norm_num : (0 : ℝ) ≤ 20)]
    norm_num
  have hfl : max (-120 : ℝ) (-0.4 * 60) < 0 := max_lt (by norm_num) (by norm_num)
  have hdrv2 : ∀ id, resolve_dr_values (resolver_gap_px 60 0) 100 0.85
      (max (-120 : ℝ) (-0.4 * 60))
      [⟨"planet.A.glyph", 0, 100, 0, 57, 57⟩, ⟨"planet.B.glyph", 0, 76, 0, 57, 57⟩]
      [] (fun _ => 0) id
      = if id = "planet.B.glyph" then max (-120 : ℝ) (-0.4 * 60) else 0 := by
    intro id
    simp only [resolve_dr_values, fold_required_dr, if_neg (not_lt.mpr hfl.le), ite_self,
      hshift, min_eq_right (show (-24.45 : ℝ) ≤ 0 by norm_num),
      if_pos (show (-24.45 : ℝ) < max (-120 : ℝ) (-0.4 * 60) from
        lt_max_iff.mpr (Or.inr (by norm_num)))]
  unfold auto_layout_overrides
  dsimp only
  rw [List.filter_cons, List.filter_cons, List.filter_nil]
  simp only [hdrv2]
  rw [if_neg (show ¬ ("planet.A.glyph" : String) = "planet.B.glyph" by decide)]
  have hne0 : max (-120 : ℝ) (-(0.4 * 60)) ≠ 0 := by
    rw [show (-(0.4 * 60) : ℝ) = -24 by norm_num,
      max_eq_right (by norm_num : (-120 : ℝ) ≤ -24)]
    norm_num
  have hmax0 : max (-120 : ℝ) (-(0.4 * 60)) = -24 := by
    rw [show (-(0.4 * 60) : ℝ) = -24 by norm_num]
    exact max_eq_right (by norm_num)
  simp [hne0, hmax0]

/-- Loop-model evaluation (behind C6): the greedy pass is NOT idempotent.
For two identical
60px planets at the same angle, run 1 clamps "B" to `dr = -24`; applying
that shift and re-running the resolver on the shifted positions yields a
further non-empty override map (again `-24` for "B"), not the empty map the
claim demands. -/
theorem auto_layout_rerun_not_idempotent :
    auto_layout_overrides
      (apply_overrides
        [planet_element "A" 90 0 0 100 60, planet_element "B" 90 0 0 100 60]
        (auto_layout_overrides
          [planet_element "A" 90 0 0 100 60, planet_element "B" 90 0 0 100 60]
          60 0 100))
      60 0 100 = [("planet.B.glyph", ⟨-24, 0⟩)] ∧
    auto_layout_overrides
      (apply_overrides
        [planet_element "A" 90 0 0 100 60, planet_element "B" 90 0 0 100 60]
        (auto_layout_overrides
          [planet_element "A" 90 0 0 100 60, planet_element "B" 90 0 0 100 60]
          60 0 100))
      60 0 100 ≠ [] := by
  rw [coincident_pair_run1, rerun_elements_eval, coincident_pair_run2]
  exact ⟨rfl, by simp⟩

end

/-! ## Render cache

`zodiac_art/api/rendering.py`: `_cache_key` (sha256 of the JSON dump of its
parts, modelled as injective content addressing, i.e. the tuple of parts
itself), the context key built in `_build_frame_render_context` (lines
309-316), the per-call keys of `render_chart_svg` and `render_chart_png`,
and the module-level `_SVG_CACHE`/`_PNG_CACHE`/`_CACHE_KEYS` with
`_cache_set`.  The resolved inputs of one frame render are bundled in
`FrameRenderInputs`; `image_path`/`image_mtime` are the external frame
asset's identity (consumed by `_get_image_size`), the remaining fields are
what the key construction actually reads. -/

section RenderCache

/-- The resolved inputs of one frame-render call, including the external
frame asset identity (`image_path`, `image_mtime`).  `chart_payload`,
`merged_meta` and `layout` stand for the serialized chart record, merged
frame metadata and layout payloads hashed by `_cache_key`. -/
structure FrameRenderInputs where
  chart_id : String
  frame_id : String
  chart_payload : String
  merged_meta : String
  layout : String
  image_path : String
  image_mtime : Int
  glyph_glow : Bool
  glyph_outline_color : Option String
  embed_frame_data_uri : Bool
  design_override : Option String
deriving DecidableEq

/-- The parts tuple of the context cache key
`_cache_key("frame", chart.chart_id, frame_id, payload, merged_meta,
layout)` of `_build_frame_render_context`. -/
structure FrameContextKeyParts where
  kind : String
  chart_id : String
  frame_id : String
  chart_payload : String
  merged_meta : String
  layout : String
deriving DecidableEq

/-- The context cache key: note that neither `image_path` nor `image_mtime`
flows into it (the image is consulted only through `_get_image_size`). -/
def frame_context_cache_key (i : FrameRenderInputs) : FrameContextKeyParts :=
  ⟨"frame", i.chart_id, i.frame_id, i.chart_payload, i.merged_meta, i.layout⟩

/-- The parts tuples of the per-call cache keys: `render_chart_svg` uses
`_cache_key("svg", context.cache_key, glyph_glow, glyph_outline_color,
embed_frame_data_uri, design_override)` and `render_chart_png` uses
`_cache_key("png", context.cache_key, max_size, ...)`; the leading
`"svg"`/`"png"` tag is the constructor. -/
inductive RenderCacheKey where
  | svg (context : FrameContextKeyParts) (glyph_glow : Bool)
      (glyph_outline_color : Option String) (embed_frame_data_uri : Bool)
      (design_override : Option String)
  | png (context : FrameContextKeyParts) (max_size : Option Int) (glyph_glow : Bool)
      (glyph_outline_color : Option String) (embed_frame_data_uri : Bool)
      (design_override : Option String)
deriving DecidableEq

/-- The key of a `render_chart_svg` call. -/
def svg_render_cache_key (i : FrameRenderInputs) : RenderCacheKey :=
  .svg (frame_context_cache_key i) i.glyph_glow i.glyph_outline_color
    i.embed_frame_data_uri i.design_override

/-- The key of a `render_chart_png` call. -/
def png_render_cache_key (i : FrameRenderInputs) (max_size : Option Int) :
    RenderCacheKey :=
  .png (frame_context_cache_key i) max_size i.glyph_glow i.glyph_outline_color
    i.embed_frame_data_uri i.design_override

/-- The module-level mutable cache state: `_SVG_CACHE`, `_PNG_CACHE` and the
shared insertion-order list `_CACHE_KEYS`. -/
structure RenderCacheState where
  svg_cache : List (RenderCacheKey × String)
  png_cache : List (RenderCacheKey × String)
  cache_keys : List RenderCacheKey
deriving DecidableEq

/-- `_cache_set(cache, key, value)`: no-op when caching is disabled, update
in place for a known key, otherwise insert, append to `_CACHE_KEYS`, and
evict the single oldest entry from both caches when the bound is
exceeded. -/
def cache_set (max_entries : Int) (st : RenderCacheState) (is_svg : Bool)
    (key : RenderCacheKey) (value : String) : RenderCacheState :=
  if max_entries ≤ 0 then st
  else
    let cache := if is_svg then st.svg_cache else st.png_cache
    if (cache.lookup key).isSome then
      let updated := cache.map fun p => if p.1 = key then (key, value) else p
      if is_svg then { st with svg_cache := updated }
      else { st with png_cache := updated }
    else
      let inserted := cache ++ [(key, value)]
      let st' := if is_svg then { st with svg_cache := inserted }
        else { st with png_cache := inserted }
      let keys := st'.cache_keys ++ [key]
      if (keys.length : Int) > max_entries then
        match keys with
        | [] => { st' with cache_keys := [] }
        | oldest :: rest =>
          { svg_cache := st'.svg_cache.filter fun p => p.1 ≠ oldest
            png_cache := st'.png_cache.filter fun p => p.1 ≠ oldest
            cache_keys := rest }
      else { st' with cache_keys := keys }

/-- The caching skeleton of `render_chart_svg`: build the key, return the
cached result on a hit (no recomputation), otherwise run the underlying
computation and store it.  The third component records whether the
underlying computation ran. -/
def render_chart_svg_model (max_entries : Int)
    (compute : FrameRenderInputs → String) (st : RenderCacheState)
    (i : FrameRenderInputs) : String × RenderCacheState × Bool :=
  let key := svg_render_cache_key i
  match st.svg_cache.lookup key with
  | some cached => (cached, st, false)
  | none =>
    let result := compute i
    (result, cache_set max_entries st true key result, true)

/-- The empty cache state. -/
def empty_cache_state : RenderCacheState := ⟨[], [], []⟩

end RenderCache

/-- Caching-skeleton analysis (behind C3): with caching enabled (max
entries >= 1), a second render
call with byte-identical resolved inputs is a cache hit (exactly one
underlying computation); the key determines and is determined by the
resolved fields (chart identity, merged metadata, layout, glyph options,
embed toggle, design override); vector and raster keys never collide; but
the frame image's modification time is NOT part of the key, so replacing
the image at the same path with a new mtime reuses the cached render. -/
theorem render_cache_key_amended (max_entries : Int)
    (compute : FrameRenderInputs → String) (i j : FrameRenderInputs) (m : Int)
    (ms : Option Int) (hmax : 1 ≤ max_entries) :
    ((render_chart_svg_model max_entries compute empty_cache_state i).2.2 = true ∧
      (render_chart_svg_model max_entries compute
          (render_chart_svg_model max_entries compute empty_cache_state i).2.1 i).2.2
        = false ∧
      (render_chart_svg_model max_entries compute
          (render_chart_svg_model max_entries compute empty_cache_state i).2.1 i).1
        = (render_chart_svg_model max_entries compute empty_cache_state i).1) ∧
    (svg_render_cache_key i = svg_render_cache_key j ↔
      (i.chart_id = j.chart_id ∧ i.frame_id = j.frame_id ∧
        i.chart_payload = j.chart_payload ∧ i.merged_meta = j.merged_meta ∧
        i.layout = j.layout ∧ i.glyph_glow = j.glyph_glow ∧
        i.glyph_outline_color = j.glyph_outline_color ∧
        i.embed_frame_data_uri = j.embed_frame_data_uri ∧
        i.design_override = j.design_override)) ∧
    svg_render_cache_key i ≠ png_render_cache_key j ms ∧
    svg_render_cache_key { i with image_mtime := m } = svg_render_cache_key i := by
  have hm0 : ¬ max_entries ≤ 0 := by omega
  have hm1 : ¬ ((1 : Int) > max_entries) := by omega
  refine ⟨?_, ?_, ?_, rfl⟩
  · simp [render_chart_svg_model, cache_set, empty_cache_state, hm0, hm1, List.lookup]
  · simp only [svg_render_cache_key, frame_context_cache_key, RenderCacheKey.svg.injEq,
      FrameContextKeyParts.mk.injEq, true_and]
    tauto
  · simp [svg_render_cache_key, png_render_cache_key]

/-- Concrete resolved inputs for the caching-skeleton evaluations. -/
def sample_inputs : FrameRenderInputs :=
  { chart_id := "chart-1", frame_id := "frame-7", chart_payload := "payload"
    merged_meta := "meta", layout := "layout", image_path := "frames/frame-7/image.png"
    image_mtime := 1700000000, glyph_glow := false, glyph_outline_color := none
    embed_frame_data_uri := true, design_override := none }

/-- The caching-skeleton analysis at concrete inputs. -/
theorem render_cache_key_amended_witness :
    (1 : Int) ≤ 8 ∧
      (((render_chart_svg_model 8 (fun _ => "svg-out") empty_cache_state
            sample_inputs).2.2 = true ∧
        (render_chart_svg_model 8 (fun _ => "svg-out")
            (render_chart_svg_model 8 (fun _ => "svg-out") empty_cache_state
              sample_inputs).2.1 sample_inputs).2.2 = false ∧
        (render_chart_svg_model 8 (fun _ => "svg-out")
            (render_chart_svg_model 8 (fun _ => "svg-out") empty_cache_state
              sample_inputs).2.1 sample_inputs).1
          = (render_chart_svg_model 8 (fun _ => "svg-out") empty_cache_state
              sample_inputs).1) ∧
      (svg_render_cache_key sample_inputs = svg_render_cache_key sample_inputs ↔
        (sample_inputs.chart_id = sample_inputs.chart_id ∧
          sample_inputs.frame_id = sample_inputs.frame_id ∧
          sample_inputs.chart_payload = sample_inputs.chart_payload ∧
          sample_inputs.merged_meta = sample_inputs.merged_meta ∧
          sample_inputs.layout = sample_inputs.layout ∧
          sample_inputs.glyph_glow = sample_inputs.glyph_glow ∧
          sample_inputs.glyph_outline_color = sample_inputs.glyph_outline_color ∧
          sample_inputs.embed_frame_data_uri = sample_inputs.embed_frame_data_uri ∧
          sample_inputs.design_override = sample_inputs.design_override)) ∧
      svg_render_cache_key sample_inputs ≠ png_render_cache_key sample_inputs none ∧
      svg_render_cache_key { sample_inputs with image_mtime := 42 }
        = svg_render_cache_key sample_inputs) :=
  ⟨by norm_num,
    render_cache_key_amended 8 (fun _ => "svg-out") sample_inputs sample_inputs 42 none
      (by norm_num)⟩

/-- Caching-skeleton evaluation (behind C3): two resolved inputs that
differ only in the frame
image's modification time (same path) share the same cache key, and the
second render call after the first is still a cache hit — changing the
asset's mtime does NOT force a miss. -/
theorem render_cache_mtime_counterexample :
    sample_inputs ≠ { sample_inputs with image_mtime := 1700009999 } ∧
      sample_inputs.image_path
        = ({ sample_inputs with image_mtime := 1700009999 } :
            FrameRenderInputs).image_path ∧
      sample_inputs.image_mtime
        ≠ ({ sample_inputs with image_mtime := 1700009999 } :
            FrameRenderInputs).image_mtime ∧
      svg_render_cache_key sample_inputs
        = svg_render_cache_key { sample_inputs with image_mtime := 1700009999 } ∧
      (render_chart_svg_model 8 (fun _ => "svg-out")
          (render_chart_svg_model 8 (fun _ => "svg-out") empty_cache_state
            sample_inputs).2.1
          { sample_inputs with image_mtime := 1700009999 }).2.2 = false := by
  refine ⟨by decide, rfl, by decide, rfl, ?_⟩
  simp [render_chart_svg_model, cache_set, empty_cache_state, sample_inputs,
    svg_render_cache_key, frame_context_cache_key, List.lookup]

/-! ## Frame circle construction

`_frame_circle_from_layout` of `zodiac_art/api/rendering.py` (lines
473-515) validates the `frame_circle` layout entry and then constructs the
`FrameCircle` dataclass imported from `zodiac_art/renderer/svg_chart.py`.
JSON payload values are modelled by `PyVal` with rational numbers. -/

section FrameCircleSection

/-- A JSON-ish Python value as stored in layout payloads.  `PyVal.none`
models Python's `None`; booleans are kept distinct from numbers (the
`isinstance(x, (int, float))` checks are modelled as matching `num` only). -/
inductive PyVal where
  | none
  | num (q : ℚ)
  | str (s : String)
  | bool (b : Bool)
  | dict (entries : List (String × PyVal))
  | list (items : List PyVal)

/-- Python `dict.get(key)` with the default `None`. -/
def PyVal.get (entries : List (String × PyVal)) (key : String) : PyVal :=
  match entries.lookup key with
  | some v => v
  | Option.none => PyVal.none

/-- The `r_norm`/`rx_norm`/`ry_norm` validation: Python `None` is allowed
and stays absent, a number is kept, any other present value makes
`_frame_circle_from_layout` return `None` (the outer `Option.none` here
signals that abort). -/
def PyVal.asOptionalNum : PyVal → Option (Option ℚ)
  | PyVal.none => some Option.none
  | PyVal.num q => some (some q)
  | _ => Option.none

/-- The `FrameCircle` dataclass of `zodiac_art/renderer/svg_chart.py`
(lines 63-70): fields `cx`, `cy`, `r` — a CIRCLE, with no `rx`/`ry`. -/
structure FrameCircle where
  cx : ℚ
  cy : ℚ
  r : ℚ
deriving DecidableEq

/-- Keyword-argument construction of the frozen dataclass `FrameCircle`: a
keyword that is not one of the dataclass fields `cx`, `cy`, `r` raises
`TypeError`, as does a missing field. -/
def FrameCircle.from_kwargs (kwargs : List (String × ℚ)) :
    Except String FrameCircle :=
  match kwargs.find? (fun p => !(["cx", "cy", "r"].contains p.1)) with
  | some p =>
    .error ("TypeError: __init__() got an unexpected keyword argument " ++ p.1)
  | Option.none =>
    match kwargs.lookup "cx", kwargs.lookup "cy", kwargs.lookup "r" with
    | some cx, some cy, some r => .ok ⟨cx, cy, r⟩
    | _, _, _ => .error "TypeError: __init__() missing required arguments"

/-- `_frame_circle_from_layout`: the validation mirrors the source line by
line; the final `FrameCircle(cx=..., cy=..., rx=..., ry=...)` call site is
modelled through `FrameCircle.from_kwargs` against the actual dataclass
fields.  `.ok Option.none` is the Python `return None`; `.error` is a raised
`TypeError`. -/
def frame_circle_from_layout (layout : Option (List (String × PyVal)))
    (image_size : ℚ × ℚ) : Except String (Option FrameCircle) :=
  match layout with
  | Option.none => .ok Option.none
  | some l =>
    if l.isEmpty then .ok Option.none
    else
      match PyVal.get l "frame_circle" with
      | PyVal.dict raw =>
        match PyVal.get raw "cxNorm" with
        | PyVal.num cx_norm =>
          match PyVal.get raw "cyNorm" with
          | PyVal.num cy_norm =>
            match (PyVal.get raw "rNorm").asOptionalNum,
                (PyVal.get raw "rxNorm").asOptionalNum,
                (PyVal.get raw "ryNorm").asOptionalNum with
            | some r_norm, some rx_norm, some ry_norm =>
              if r_norm.isNone && (rx_norm.isNone || ry_norm.isNone) then
                .ok Option.none
              else
                let r_value :=
                  match r_norm with
                  | some r => r
                  | Option.none => min (rx_norm.getD 0) (ry_norm.getD 0)
                let rx_value := rx_norm.getD r_value
                let ry_value := ry_norm.getD r_value
                (FrameCircle.from_kwargs
                  [("cx", cx_norm * image_size.1), ("cy", cy_norm * image_size.2),
                    ("rx", rx_value * image_size.1),
                    ("ry", ry_value * image_size.2)]).map some
            | _, _, _ => .ok Option.none
          | _ => .ok Option.none
        | _ => .ok Option.none
      | _ => .ok Option.none

/-- C4 (code bug): a well-formed `frame_circle` layout entry does not yield
a clipped render — it raises.  `_frame_circle_from_layout` passes the
keywords `cx`, `cy`, `rx`, `ry`, but the `FrameCircle` dataclass it
constructs has fields `(cx, cy, r)` only, so the keyword `rx` raises
`TypeError` during context construction, before any drawing.  Evaluated at
the failing input `{"frame_circle": {"cxNorm": 0.5, "cyNorm": 0.5,
"rNorm": 0.4}}` with a 1000x1000 frame image. -/
theorem frame_circle_from_layout_type_error :
    frame_circle_from_layout
      (some [("frame_circle", PyVal.dict
        [("cxNorm", PyVal.num (1 / 2)), ("cyNorm", PyVal.num (1 / 2)),
          ("rNorm", PyVal.num (2 / 5))])])
      (1000, 1000)
      = .error "TypeError: __init__() got an unexpected keyword argument rx" := by
  rfl

end FrameCircleSection

/-! ## Compositor

`zodiac_art/compositor/compositor.py`.  Strings are assembled exactly as in
the source; numeric formatting (`str()` and `:.3f`) is abstracted into the
single total function `numStr` (no claim depends on the digits), file reads
and base64 encoding are the oracle `b64_of`, and the outcome of
`ET.fromstring` is supplied as an explicit `Option XmlNode` argument
(`none` models `ET.ParseError`). -/

section Compositor

/-- Rendering of a number into markup text (abstracts Python's `str()` and
`:.3f` formatting). -/
def numStr (q : ℚ) : String := toString q

/-- The slice of `FrameMeta` (from `zodiac_art/frames/frame_loader.py`) the
compositor reads. -/
structure FrameMeta where
  canvas_width : ℚ
  canvas_height : ℚ
  chart_center_x : ℚ
  chart_center_y : ℚ
  rotation_deg : ℚ

/-- The slice of `FrameAsset` the compositor reads. -/
structure FrameAsset where
  image_path : String
  meta : FrameMeta

/-- An XML element tree, the model of `xml.etree.ElementTree`. -/
inductive XmlNode where
  | el (tag : String) (attrs : List (String × String)) (children : List XmlNode)

/-- Direct children of an element. -/
def XmlNode.children : XmlNode → List XmlNode
  | .el _ _ c => c

/-- `element.get(name)`. -/
def XmlNode.getAttr : XmlNode → String → Option String
  | .el _ attrs _, name => attrs.lookup name

/-- `_local_name`: strip a `{namespace}` prefix (Python
`tag.split("}", 1)[1]`). -/
def local_name (tag : String) : String :=
  match tag.splitOn "\x7d" with
  | [] => tag
  | [_] => tag
  | _ :: rest => String.intercalate "\x7d" rest

mutual
/-- `ET.tostring` (simplified serialization; claims never inspect the
serialized digits or quoting). -/
def XmlNode.toMarkup : XmlNode → String
  | .el tag attrs children =>
    "<" ++ tag
      ++ String.join (attrs.map fun a => " " ++ a.1 ++ "='" ++ a.2 ++ "'")
      ++ ">" ++ XmlNode.listToMarkup children ++ "</" ++ tag ++ ">"

/-- Serialization of a child list. -/
def XmlNode.listToMarkup : List XmlNode → String
  | [] => ""
  | x :: xs => XmlNode.toMarkup x ++ XmlNode.listToMarkup xs
end

mutual
/-- First element (document order, the node itself included) carrying the
given `id` attribute, as `root.iter()` finds it. -/
def find_by_id : XmlNode → String → Option XmlNode
  | .el tag attrs children, eid =>
    if attrs.lookup "id" = some eid then some (.el tag attrs children)
    else find_by_id_list children eid

/-- `find_by_id` over a child list. -/
def find_by_id_list : List XmlNode → String → Option XmlNode
  | [], _ => Option.none
  | c :: cs, eid =>
    match find_by_id c eid with
    | some r => some r
    | Option.none => find_by_id_list cs eid
end

mutual
/-- `_remove_child_by_id`: remove, from the first parent in document order
that has one, the first direct child carrying the given id; return the
modified tree and the removed child. -/
def remove_child_by_id : XmlNode → String → XmlNode × Option XmlNode
  | .el tag attrs children, eid =>
    match extract_child children eid with
    | (children', some removed) => (.el tag attrs children', some removed)
    | (_, Option.none) =>
      match remove_in_children children eid with
      | (children', r) => (.el tag attrs children', r)

/-- Remove the first direct child with the given id from a child list. -/
def extract_child : List XmlNode → String → List XmlNode × Option XmlNode
  | [], _ => ([], Option.none)
  | c :: cs, eid =>
    if c.getAttr "id" = some eid then (cs, some c)
    else
      match extract_child cs eid with
      | (cs', r) => (c :: cs', r)

/-- Recurse `remove_child_by_id` through a child list in document order. -/
def remove_in_children : List XmlNode → String → List XmlNode × Option XmlNode
  | [], _ => ([], Option.none)
  | c :: cs, eid =>
    match remove_child_by_id c eid with
    | (c', some r) => (c' :: cs, some r)
    | (_, Option.none) =>
      match remove_in_children cs eid with
      | (cs', r) => (c :: cs', r)
end

/-- `_strip_xml_declaration` (`lstrip` modelled by `trimLeft`, `splitlines`
by splitting at newlines). -/
def strip_xml_declaration (svg_text : String) : String :=
  let stripped := svg_text.trimLeft
  if stripped.startsWith "<?xml" then
    String.intercalate "\n" ((stripped.splitOn "\n").drop 1)
  else svg_text

/-- The `defs` lookup in `_extract_chart_layers`: first direct child of the
root whose local tag name is `defs`, serialized; `""` otherwise. -/
def first_defs_markup (children : List XmlNode) : String :=
  match children.find? (fun c =>
      match c with | .el tag _ _ => local_name tag == "defs") with
  | some c => c.toMarkup
  | Option.none => ""

/-- `_extract_chart_layers`, the parse outcome supplied as the oracle
`parsed` (`none` models `ET.ParseError`).  Returns
`(defs_markup, background_markup?, chart_markup?)`. -/
def extract_chart_layers (chart_svg : String) (parsed : Option XmlNode) :
    String × Option String × Option String :=
  match parsed with
  | Option.none => ("", Option.none, some (strip_xml_declaration chart_svg))
  | some root =>
    let defs_markup := first_defs_markup root.children
    match find_by_id root "chartRoot" with
    | Option.none => (defs_markup, Option.none, some (strip_xml_declaration chart_svg))
    | some chart_root =>
      match remove_child_by_id chart_root "chart.background" with
      | (chart_root', Option.none) =>
        (defs_markup, Option.none, some chart_root'.toMarkup)
      | (chart_root', some background) =>
        let background_markup := background.toMarkup
        let wrapper_attrs :=
          (match chart_root.getAttr "transform" with
            | some t => ["transform='" ++ t ++ "'"]
            | Option.none => []) ++
          (match chart_root.getAttr "clip-path" with
            | some c => ["clip-path='" ++ c ++ "'"]
            | Option.none => [])
        let background_markup :=
          if wrapper_attrs.isEmpty then background_markup
          else "<g " ++ String.intercalate " " wrapper_attrs ++ ">"
            ++ background_markup ++ "</g>"
        (defs_markup, some background_markup, some chart_root'.toMarkup)

/-- `Path.suffix` (the final extension, dot included). -/
def path_suffix (p : String) : String :=
  match (p.splitOn ".").reverse with
  | ext :: _ :: _ => "." ++ ext
  | _ => ""

/-- `_encode_image_to_data_uri`, file bytes and base64 via the `b64_of`
oracle. -/
def encode_image_to_data_uri (b64_of : String → String) (image_path : String) :
    String :=
  let suffix := (path_suffix image_path).toLower
  let mime :=
    if suffix = ".png" then "image/png"
    else if suffix = ".jpg" then "image/jpeg"
    else if suffix = ".jpeg" then "image/jpeg"
    else if suffix = ".webp" then "image/webp"
    else "application/octet-stream"
  "data:" ++ mime ++ ";base64," ++ b64_of image_path

/-- `_background_image_layer` (`as_posix` modelled as the path itself). -/
def background_image_layer (b64_of : String → String) (image_path : String)
    (meta : FrameMeta) (embed_data_uri : Bool) (scale dx dy : ℚ) :
    String × String :=
  let href := if embed_data_uri then encode_image_to_data_uri b64_of image_path
    else image_path
  ("",
    "<g>" ++ "<image href='" ++ href ++ "' x='" ++ numStr dx ++ "' y='" ++ numStr dy
      ++ "' width='" ++ numStr (meta.canvas_width * scale) ++ "' height='"
      ++ numStr (meta.canvas_height * scale) ++ "' />" ++ "</g>")

/-- One occluder dict rendered to a black mask shape; `none` when the shape
is unknown or a coordinate is not numeric (Python `continue`). -/
def occluder_shape_markup : PyVal → Option String
  | PyVal.dict occluder =>
    let rotation_value : ℚ :=
      match PyVal.get occluder "rotation_deg" with
      | PyVal.num q => q
      | _ => 0
    match PyVal.get occluder "shape" with
    | PyVal.str s =>
      if s = "ellipse" then
        match PyVal.get occluder "cx", PyVal.get occluder "cy",
            PyVal.get occluder "rx", PyVal.get occluder "ry" with
        | PyVal.num cx, PyVal.num cy, PyVal.num rx, PyVal.num ry =>
          let transform :=
            if rotation_value = 0 then ""
            else " transform='rotate(" ++ numStr rotation_value ++ " " ++ numStr cx
              ++ " " ++ numStr cy ++ ")'"
          some ("<ellipse cx='" ++ numStr cx ++ "' cy='" ++ numStr cy ++ "' rx='"
            ++ numStr rx ++ "' ry='" ++ numStr ry ++ "' fill='black'" ++ transform
            ++ " />")
        | _, _, _, _ => Option.none
      else if s = "rect" then
        match PyVal.get occluder "x", PyVal.get occluder "y",
            PyVal.get occluder "width", PyVal.get occluder "height" with
        | PyVal.num x, PyVal.num y, PyVal.num width, PyVal.num height =>
          let cx := x + width / 2
          let cy := y + height / 2
          let transform :=
            if rotation_value = 0 then ""
            else " transform='rotate(" ++ numStr rotation_value ++ " " ++ numStr cx
              ++ " " ++ numStr cy ++ ")'"
          some ("<rect x='" ++ numStr x ++ "' y='" ++ numStr y ++ "' width='"
            ++ numStr width ++ "' height='" ++ numStr height ++ "' fill='black'"
            ++ transform ++ " />")
        | _, _, _, _ => Option.none
      else Option.none
    | _ => Option.none
  | _ => Option.none

/-- The shared occluder mask markup (`""` when there is nothing to mask). -/
def occluder_mask_markup (meta : FrameMeta)
    (chart_occluders : Option (List PyVal)) : String :=
  match chart_occluders with
  | Option.none => ""
  | some occs =>
    if occs.isEmpty then ""
    else
      let shapes := occs.filterMap occluder_shape_markup
      if shapes.isEmpty then ""
      else
        "<defs><mask id='chart-occluder-mask' maskUnits='userSpaceOnUse'>"
          ++ "<rect x='0' y='0' width='" ++ numStr meta.canvas_width ++ "' height='"
          ++ numStr meta.canvas_height ++ "' fill='white' />"
          ++ String.join shapes ++ "</mask></defs>"

/-- One iteration body of the layer loop in `compose_svg`: wrap the layer in
the frame rotation (rotation-bearing layers only), the shared occluder mask
(background and chart only), and an opacity group when the configured
opacity is in `[0, 1]` and not 1. -/
def layer_block (rotate_group mask_markup : String)
    (layer_opacity : String → Option ℚ) (key : String) (layer : String) : String :=
  let layer :=
    if key = "background" ∨ key = "chart" ∨ key = "chart_background_image" then
      "<g transform='" ++ rotate_group ++ "'>" ++ layer ++ "</g>"
    else layer
  let layer :=
    if (key = "background" ∨ key = "chart") ∧ mask_markup ≠ "" then
      "<g mask='url(#chart-occluder-mask)'>" ++ layer ++ "</g>"
    else layer
  match layer_opacity key with
  | some opacity =>
    if 0 ≤ opacity ∧ opacity ≤ 1 ∧ opacity ≠ 1 then
      "<g opacity='" ++ numStr opacity ++ "'>" ++ layer ++ "</g>"
    else layer
  | Option.none => layer

/-- The layer loop of `compose_svg`: skip unknown and falsy (absent or
empty) layers, wrap the rest. -/
def build_layer_blocks (rotate_group mask_markup : String)
    (layer_opacity : String → Option ℚ) (layer_map : String → Option String) :
    List String → List String
  | [] => []
  | key :: rest =>
    let tail := build_layer_blocks rotate_group mask_markup layer_opacity layer_map rest
    match layer_map key with
    | Option.none => tail
    | some layer => if layer = "" then tail
      else layer_block rotate_group mask_markup layer_opacity key layer :: tail

/-- `compose_svg`.  `b64_of` is the file-read/base64 oracle, `parsed` the
`ET.fromstring` outcome for `chart_svg`; the `ValueError` for missing frame
metadata is the `.error` case. -/
def compose_svg (b64_of : String → String) (chart_svg : String)
    (parsed : Option XmlNode) (frame_asset : Option FrameAsset)
    (embed_frame_data_uri : Bool) (layer_order : Option (List String))
    (layer_opacity : Option (String → Option ℚ))
    (background_image_path : Option String)
    (background_image_transform : Option (ℚ × ℚ × ℚ))
    (meta_override : Option FrameMeta) (chart_occluders : Option (List PyVal)) :
    Except String String :=
  let layer_order := layer_order.getD ["background", "frame", "chart"]
  match (match frame_asset with
          | some fa => some fa.meta
          | Option.none => meta_override) with
  | Option.none => .error "ValueError: Frame metadata is required to compose SVG layers."
  | some meta =>
    let ecl := extract_chart_layers chart_svg parsed
    let defs_markup := ecl.1
    let background_markup := ecl.2.1
    let chart_markup :=
      match ecl.2.2 with
      | some c => c
      | Option.none => strip_xml_declaration chart_svg
    let frame_markup :=
      match frame_asset with
      | some fa =>
        some ("<image href='"
          ++ (if embed_frame_data_uri then encode_image_to_data_uri b64_of fa.image_path
              else fa.image_path)
          ++ "' x='0' y='0' width='" ++ numStr meta.canvas_width ++ "' height='"
          ++ numStr meta.canvas_height ++ "' />")
      | Option.none => Option.none
    let rotate_group := "rotate(" ++ numStr meta.rotation_deg ++ " "
      ++ numStr meta.chart_center_x ++ " " ++ numStr meta.chart_center_y ++ ")"
    let layer_opacity := layer_opacity.getD (fun _ => Option.none)
    let background_image_markup :=
      match background_image_path with
      | some path =>
        let t := background_image_transform.getD (1, 0, 0)
        some (background_image_layer b64_of path meta embed_frame_data_uri
          t.1 t.2.1 t.2.2).2
      | Option.none => Option.none
    let mask_markup := occluder_mask_markup meta chart_occluders
    let layer_map : String → Option String := fun key =>
      if key = "background" then background_markup
      else if key = "chart_background_image" then background_image_markup
      else if key = "frame" then frame_markup
      else if key = "chart" then some chart_markup
      else Option.none
    let blocks := build_layer_blocks rotate_group mask_markup layer_opacity
      layer_map layer_order
    .ok ("<svg xmlns='http://www.w3.org/2000/svg' width='" ++ numStr meta.canvas_width
      ++ "' height='" ++ numStr meta.canvas_height ++ "'>"
      ++ defs_markup ++ mask_markup ++ String.join blocks ++ "</svg>")

end Compositor

/-- Pointwise agreement of the opacity map at a key gives the same layer
block. -/
theorem layer_block_opacity_congr (r m : String) (lop lop' : String → Option ℚ)
    (key : String) (h : lop key = lop' key) (layer : String) :
    layer_block r m lop key layer = layer_block r m lop' key layer := by
  unfold layer_block
  rw [h]

/-- Layer blocks agree when the two opacity maps produce the same block for
every key. -/
theorem build_layer_blocks_congr (r m : String) (lop lop' : String → Option ℚ)
    (lm : String → Option String) (order : List String)
    (h : ∀ key layer, layer_block r m lop key layer
      = layer_block r m lop' key layer) :
    build_layer_blocks r m lop lm order = build_layer_blocks r m lop' lm order := by
  induction order with
  | nil => rfl
  | cons key rest ih =>
    unfold build_layer_blocks
    rw [ih]
    cases lm key with
    | none => rfl
    | some layer =>
      by_cases hl : layer = ""
      · simp [hl]
      · simp [hl, h key layer]

/-- C10: a layer is wrapped in an opacity group only when its configured
opacity lies in `[0, 1]` and differs from 1; an opacity outside `[0, 1]` is
silently ignored — the block is built exactly as if the entry were missing,
with no wrapper and no error — so at the document level an out-of-range
entry never changes `compose_svg`'s output relative to omitting it. -/
theorem compose_svg_opacity_out_of_range_ignored
    (rotate_group mask_markup : String) (lop : String → Option ℚ) (k : String)
    (o : ℚ) (b64_of : String → String) (chart_svg : String)
    (parsed : Option XmlNode) (frame_asset : Option FrameAsset) (embed : Bool)
    (layer_order : Option (List String)) (bip : Option String)
    (bit : Option (ℚ × ℚ × ℚ)) (mo : Option FrameMeta) (occ : Option (List PyVal))
    (hk : lop k = some o) (ho : ¬ (0 ≤ o ∧ o ≤ 1)) :
    (∀ layer, layer_block rotate_group mask_markup lop k layer
        = layer_block rotate_group mask_markup
            (fun key => if key = k then Option.none else lop key) k layer) ∧
    compose_svg b64_of chart_svg parsed frame_asset embed layer_order (some lop)
        bip bit mo occ
      = compose_svg b64_of chart_svg parsed frame_asset embed layer_order
          (some fun key => if key = k then Option.none else lop key) bip bit mo occ := by
  have hblock : ∀ (r m key layer : String), layer_block r m lop key layer
      = layer_block r m
          (fun key' => if key' = k then Option.none else lop key') key layer := by
    intro r m key layer
    by_cases hkey : key = k
    · subst hkey
      simp only [layer_block]
      rw [hk]
      beta_reduce
      have h2 : ¬ (0 ≤ o ∧ o ≤ 1 ∧ o ≠ 1) := fun hcon => ho ⟨hcon.1, hcon.2.1⟩
      simp [h2]
    · exact layer_block_opacity_congr _ _ _ _ key (by simp [hkey]) layer
  refine ⟨fun layer => hblock rotate_group mask_markup k layer, ?_⟩
  unfold compose_svg
  cases frame_asset with
  | none =>
    cases mo with
    | none => rfl
    | some m =>
      dsimp only [Option.getD]
      rw [build_layer_blocks_congr _ _ lop
        (fun key => if key = k then Option.none else lop key) _ _
        (fun key layer => hblock _ _ key layer)]
  | some fa =>
    dsimp only [Option.getD]
    rw [build_layer_blocks_congr _ _ lop
      (fun key => if key = k then Option.none else lop key) _ _
      (fun key layer => hblock _ _ key layer)]

/-- Witness for C10 at a concrete composition: opacity 2 on the chart layer
leaves the output identical to having no opacity entry for it. -/
theorem compose_svg_opacity_out_of_range_ignored_witness :
    ((fun key => if key = "chart" then some (2 : ℚ) else Option.none) "chart"
        = some (2 : ℚ) ∧ ¬ ((0 : ℚ) ≤ 2 ∧ (2 : ℚ) ≤ 1)) ∧
      ((∀ layer, layer_block "rotate(0 1 1)" ""
          (fun key => if key = "chart" then some (2 : ℚ) else Option.none) "chart" layer
          = layer_block "rotate(0 1 1)" ""
              (fun key => if key = "chart" then Option.none
                else (fun key' => if key' = "chart" then some (2 : ℚ) else Option.none) key)
              "chart" layer) ∧
        compose_svg (fun _ => "") "<broken" Option.none
            (some ⟨"frame.png", ⟨100, 100, 50, 50, 0⟩⟩) true Option.none
            (some fun key => if key = "chart" then some (2 : ℚ) else Option.none)
            Option.none Option.none Option.none Option.none
          = compose_svg (fun _ => "") "<broken" Option.none
              (some ⟨"frame.png", ⟨100, 100, 50, 50, 0⟩⟩) true Option.none
              (some fun key => if key = "chart" then Option.none
                else (fun key' => if key' = "chart" then some (2 : ℚ) else Option.none) key)
              Option.none Option.none Option.none Option.none) :=
  ⟨⟨by decide, by decide⟩,
    compose_svg_opacity_out_of_range_ignored "rotate(0 1 1)" ""
      (fun key => if key = "chart" then some (2 : ℚ) else Option.none) "chart" 2
      (fun _ => "") "<broken" Option.none (some ⟨"frame.png", ⟨100, 100, 50, 50, 0⟩⟩)
      true Option.none Option.none Option.none Option.none Option.none
      (by decide) (by decide)⟩

/-- The scene failed to parse as XML (`none`), or parsed but lacks the
expected `chartRoot` element. -/
def scene_not_parsed (parsed : Option XmlNode) : Prop :=
  match parsed with
  | Option.none => True
  | some root => find_by_id root "chartRoot" = Option.none

/-- The defs markup the extraction keeps on the opaque fallback path. -/
def defs_of (parsed : Option XmlNode) : String :=
  match parsed with
  | Option.none => ""
  | some root => first_defs_markup root.children

/-- On an unparseable or structurally unexpected scene, extraction keeps the
whole stripped input as the opaque chart markup and reports no background. -/
theorem extract_chart_layers_fallback (chart_svg : String) (parsed : Option XmlNode)
    (h : scene_not_parsed parsed) :
    extract_chart_layers chart_svg parsed
      = (defs_of parsed, Option.none, some (strip_xml_declaration chart_svg)) := by
  cases parsed with
  | none => rfl
  | some root =>
    have h' : find_by_id root "chartRoot" = Option.none := h
    simp only [extract_chart_layers, defs_of, h']

/-- A string with a nonempty left part is nonempty. -/
theorem append_left_ne_empty (s t : String) (h : s.length ≠ 0) : s ++ t ≠ "" := by
  intro hcon
  have hlen := congrArg String.length hcon
  rw [String.length_append] at hlen
  simp only [String.length_empty] at hlen
  omega

/-- The chart layer block is the layer itself between a fixed prefix and a
fixed suffix, whatever the rotation, mask and opacity configuration. -/
theorem layer_block_chart_decomp (r m : String) (lop : String → Option ℚ) :
    ∃ a b : String, ∀ layer, layer_block r m lop "chart" layer = a ++ layer ++ b := by
  by_cases hm : m = ""
  · cases ho : lop "chart" with
    | none =>
      refine ⟨"<g transform='" ++ r ++ "'>", "</g>", fun layer => ?_⟩
      simp [layer_block, ho, hm, String.append_assoc]
    | some o =>
      by_cases hr : (0 : ℚ) ≤ o ∧ o ≤ 1 ∧ o ≠ 1
      · refine ⟨"<g opacity='" ++ numStr o ++ "'>" ++ ("<g transform='" ++ r ++ "'>"),
          "</g>" ++ "</g>", fun layer => ?_⟩
        simp [layer_block, ho, hm, hr, String.append_assoc]
      · refine ⟨"<g transform='" ++ r ++ "'>", "</g>", fun layer => ?_⟩
        simp [layer_block, ho, hm, hr, String.append_assoc]
  · cases ho : lop "chart" with
    | none =>
      refine ⟨"<g mask='url(#chart-occluder-mask)'>" ++ ("<g transform='" ++ r ++ "'>"),
        "</g>" ++ "</g>", fun layer => ?_⟩
      simp [layer_block, ho, hm, String.append_assoc]
    | some o =>
      by_cases hr : (0 : ℚ) ≤ o ∧ o ≤ 1 ∧ o ≠ 1
      · refine ⟨"<g opacity='" ++ numStr o ++ "'>"
            ++ ("<g mask='url(#chart-occluder-mask)'>" ++ ("<g transform='" ++ r ++ "'>")),
          "</g>" ++ ("</g>" ++ "</g>"), fun layer => ?_⟩
        simp [layer_block, ho, hm, hr, String.append_assoc]
      · refine ⟨"<g mask='url(#chart-occluder-mask)'>" ++ ("<g transform='" ++ r ++ "'>"),
          "</g>" ++ "</g>", fun layer => ?_⟩
        simp [layer_block, ho, hm, hr, String.append_assoc]

/-- A string with a nonempty right part is nonempty. -/
theorem append_right_ne_empty (s t : String) (h : t.length ≠ 0) : s ++ t ≠ "" := by
  intro hcon
  have hlen := congrArg String.length hcon
  rw [String.length_append] at hlen
  simp only [String.length_empty] at hlen
  omega

/-- On the default layer order with no background layer and nonempty frame
and chart layers, the loop emits exactly the frame block then the chart
block. -/
theorem build_layer_blocks_default (rg mask : String) (lop : String → Option ℚ)
    (lm : String → Option String)
    (hb : lm "background" = Option.none)
    (hf1 : (lm "frame").isSome) (hf2 : (lm "frame").getD "" ≠ "")
    (hc1 : (lm "chart").isSome) (hc2 : (lm "chart").getD "" ≠ "") :
    build_layer_blocks rg mask lop lm ["background", "frame", "chart"]
      = [layer_block rg mask lop "frame" ((lm "frame").getD ""),
         layer_block rg mask lop "chart" ((lm "chart").getD "")] := by
  cases hlf : lm "frame" with
  | none => rw [hlf] at hf1; simp at hf1
  | some f =>
    cases hlc : lm "chart" with
    | none => rw [hlc] at hc1; simp at hc1
    | some c =>
      simp only [hlf, hlc, Option.getD_some] at hf2 hc2 ⊢
      simp only [build_layer_blocks, hb, hlf, hlc]
      rw [if_neg hf2, if_neg hc2]

set_option maxHeartbeats 1000000 in
/-- C9: given frame metadata, a chart scene string that fails to parse as
XML (or parses without the expected chartRoot structure) still composes
without error: `compose_svg` returns `.ok`, and the whole input — only the
XML declaration stripped — is embedded verbatim as the opaque chart layer,
with the frame layer and document scaffolding composited around it as
usual. -/
theorem compose_svg_opaque_fallback (b64_of : String → String)
    (parsed : Option XmlNode) (fa : FrameAsset) (embed : Bool)
    (lop : Option (String → Option ℚ)) (bip : Option String)
    (bit : Option (ℚ × ℚ × ℚ)) (mo : Option FrameMeta) (occ : Option (List PyVal))
    (h : scene_not_parsed parsed) :
    ∃ pre post : String, ∀ chart_svg : String,
      strip_xml_declaration chart_svg ≠ "" →
      compose_svg b64_of chart_svg parsed (some fa) embed Option.none lop bip bit mo occ
        = Except.ok (pre ++ strip_xml_declaration chart_svg ++ post) := by
  obtain ⟨a, b, hab⟩ := layer_block_chart_decomp
    ("rotate(" ++ numStr fa.meta.rotation_deg ++ " " ++ numStr fa.meta.chart_center_x
      ++ " " ++ numStr fa.meta.chart_center_y ++ ")")
    (occluder_mask_markup fa.meta occ)
    (lop.getD (fun _ => Option.none))
  refine ⟨"<svg xmlns='http://www.w3.org/2000/svg' width='" ++ numStr fa.meta.canvas_width
      ++ "' height='" ++ numStr fa.meta.canvas_height ++ "'>"
      ++ defs_of parsed ++ occluder_mask_markup fa.meta occ
      ++ (layer_block
            ("rotate(" ++ numStr fa.meta.rotation_deg ++ " "
              ++ numStr fa.meta.chart_center_x ++ " "
              ++ numStr fa.meta.chart_center_y ++ ")")
            (occluder_mask_markup fa.meta occ) (lop.getD (fun _ => Option.none)) "frame"
            ("<image href='"
              ++ (if embed then encode_image_to_data_uri b64_of fa.image_path
                  else fa.image_path)
              ++ "' x='0' y='0' width='" ++ numStr fa.meta.canvas_width ++ "' height='"
              ++ numStr fa.meta.canvas_height ++ "' />")
          ++ a),
    b ++ "</svg>", fun chart_svg hne => ?_⟩
  simp only [compose_svg]
  rw [extract_chart_layers_fallback chart_svg parsed h]
  dsimp only
  simp only [Option.getD_none]
  rw [build_layer_blocks_default]
  · simp only [String.join, List.foldl]
    simp only [Option.getD_some, String.reduceEq, reduceIte]
    rw [hab (strip_xml_declaration chart_svg)]
    simp [String.append_assoc]
  · simp
  · simp
  · simp
    exact append_right_ne_empty _ "' />" (by decide)
  · simp
  · simpa using hne

/-- Witness for C9: an unparseable scene (`parsed = none`) with a concrete
frame asset composes into a document embedding the stripped input. -/
theorem compose_svg_opaque_fallback_witness :
    scene_not_parsed (Option.none : Option XmlNode) ∧
      ∃ pre post : String, ∀ chart_svg : String,
        strip_xml_declaration chart_svg ≠ "" →
        compose_svg (fun _ => "") chart_svg Option.none
            (some ⟨"frame.png", ⟨100, 100, 50, 50, 0⟩⟩) true Option.none Option.none
            Option.none Option.none Option.none Option.none
          = Except.ok (pre ++ strip_xml_declaration chart_svg ++ post) :=
  ⟨True.intro,
    compose_svg_opaque_fallback (fun _ => "") Option.none
      ⟨"frame.png", ⟨100, 100, 50, 50, 0⟩⟩ true Option.none Option.none Option.none
      Option.none Option.none True.intro⟩

/-! ## Render settings construction

`_build_settings` of `zodiac_art/api/rendering.py` (lines 179-201)
constructs the `RenderSettings` dataclass imported from
`zodiac_art/renderer/svg_chart.py` (lines 24-39).  The call site passes the
keywords `sign_glyph_scale=` and `planet_glyph_scale=` (rendering.py lines
197-198), but the dataclass has no such fields, so — whenever the
ring-radius guard passes — the construction raises `TypeError` before
returning.  `_build_settings` is an early step of both
`_build_frame_render_context` (line 307, before the context cache key at
line 309) and `_compute_auto_layout_overrides_from_meta` (line 711, before
any element is built), so neither function ever completes. -/

noncomputable section BuildSettings

/-- A keyword-argument value in a `RenderSettings(...)` call. -/
inductive SettingsVal where
  | num (x : ℝ)
  | str (s : String)

/-- Numeric keyword value. -/
def SettingsVal.asNum : SettingsVal → Option ℝ
  | SettingsVal.num x => some x
  | _ => Option.none

/-- String keyword value. -/
def SettingsVal.asStr : SettingsVal → Option String
  | SettingsVal.str s => some s
  | _ => Option.none

/-- The `RenderSettings` dataclass of `zodiac_art/renderer/svg_chart.py`
(lines 24-39): twelve fields — and NO `sign_glyph_scale` or
`planet_glyph_scale`. -/
structure RenderSettings where
  width : ℝ
  height : ℝ
  center_x : ℝ
  center_y : ℝ
  radius : ℝ
  sign_ring_inner_ratio : ℝ
  sign_ring_outer_ratio : ℝ
  planet_ring_ratio : ℝ
  label_ring_ratio : ℝ
  planet_label_offset_ratio : ℝ
  font_scale : ℝ
  glyph_mode : String

/-- The field names of the `RenderSettings` dataclass, in declaration
order. -/
def RenderSettings.field_names : List String :=
  ["width", "height", "center_x", "center_y", "radius", "sign_ring_inner_ratio",
    "sign_ring_outer_ratio", "planet_ring_ratio", "label_ring_ratio",
    "planet_label_offset_ratio", "font_scale", "glyph_mode"]

/-- Keyword-argument construction of the frozen dataclass `RenderSettings`:
a keyword that is not one of the dataclass fields raises `TypeError` naming
the first such keyword; a missing or mistyped field raises `TypeError` as
well. -/
def RenderSettings.from_kwargs (kwargs : List (String × SettingsVal)) :
    Except String RenderSettings :=
  match kwargs.find? (fun p => !(RenderSettings.field_names.contains p.1)) with
  | some p =>
    .error ("TypeError: __init__() got an unexpected keyword argument " ++ p.1)
  | Option.none =>
    match (kwargs.lookup "width").bind SettingsVal.asNum,
        (kwargs.lookup "height").bind SettingsVal.asNum,
        (kwargs.lookup "center_x").bind SettingsVal.asNum,
        (kwargs.lookup "center_y").bind SettingsVal.asNum,
        (kwargs.lookup "radius").bind SettingsVal.asNum,
        (kwargs.lookup "sign_ring_inner_ratio").bind SettingsVal.asNum,
        (kwargs.lookup "sign_ring_outer_ratio").bind SettingsVal.asNum,
        (kwargs.lookup "planet_ring_ratio").bind SettingsVal.asNum,
        (kwargs.lookup "label_ring_ratio").bind SettingsVal.asNum,
        (kwargs.lookup "planet_label_offset_ratio").bind SettingsVal.asNum,
        (kwargs.lookup "font_scale").bind SettingsVal.asNum,
        (kwargs.lookup "glyph_mode").bind SettingsVal.asStr with
    | some w, some h, some cx, some cy, some r, some sri, some sro, some prr,
        some lrr, some plo, some fs, some gm =>
      .ok ⟨w, h, cx, cy, r, sri, sro, prr, lrr, plo, fs, gm⟩
    | _, _, _, _, _, _, _, _, _, _, _, _ =>
      .error "TypeError: __init__() missing required arguments"

/-- The slice of the validated frame metadata (`validate_meta`) that
`_build_settings` and `_compute_auto_layout_overrides_from_meta` read. -/
structure RenderFrameMeta where
  canvas_width : ℝ
  canvas_height : ℝ
  chart_center_x : ℝ
  chart_center_y : ℝ
  ring_inner : ℝ
  ring_outer : ℝ

/-- The slice of `AppConfig` (`zodiac_art/config.py`) that `_build_settings`
reads. -/
structure AppConfigSlice where
  planet_ring_ratio : ℝ
  label_ring_ratio : ℝ
  planet_label_offset_ratio : ℝ
  glyph_mode : String

/-- The slice of `DesignSettings` (rendering.py lines 55-65) that
`_build_settings` reads. -/
structure DesignSettings where
  sign_glyph_scale : ℝ
  planet_glyph_scale : ℝ
  inner_ring_scale : ℝ

/-- `_design_from_layout(None)` (rendering.py lines 108-155): with no layout
and no override every one of these fields falls back to its `_DEFAULT_*`
constant of 1.0. -/
def design_from_layout_none : DesignSettings := ⟨1, 1, 1⟩

open Classical in
/-- `_build_settings` (rendering.py lines 179-201): guard on the ring outer
radius, then the `RenderSettings(...)` call with the keywords exactly as
written at the call site — including `sign_glyph_scale=` and
`planet_glyph_scale=`, which are not `RenderSettings` fields. -/
def build_settings (meta : RenderFrameMeta) (config : AppConfigSlice)
    (design : DesignSettings) (font_scale : ℝ) : Except String RenderSettings :=
  if meta.ring_outer ≤ 0 then
    .error "ValueError: Frame ring outer radius must be positive."
  else
    let inner_ratio := meta.ring_inner / meta.ring_outer * design.inner_ring_scale
    RenderSettings.from_kwargs
      [("width", SettingsVal.num meta.canvas_width),
        ("height", SettingsVal.num meta.canvas_height),
        ("center_x", SettingsVal.num meta.chart_center_x),
        ("center_y", SettingsVal.num meta.chart_center_y),
        ("radius", SettingsVal.num meta.ring_outer),
        ("sign_ring_inner_ratio", SettingsVal.num inner_ratio),
        ("sign_ring_outer_ratio", SettingsVal.num 1),
        ("planet_ring_ratio",
          SettingsVal.num (config.planet_ring_ratio * design.inner_ring_scale)),
        ("label_ring_ratio", SettingsVal.num config.label_ring_ratio),
        ("planet_label_offset_ratio",
          SettingsVal.num config.planet_label_offset_ratio),
        ("font_scale", SettingsVal.num font_scale),
        ("sign_glyph_scale", SettingsVal.num design.sign_glyph_scale),
        ("planet_glyph_scale", SettingsVal.num design.planet_glyph_scale),
        ("glyph_mode", SettingsVal.str config.glyph_mode)]

/-- Every `_build_settings` call with a positive ring outer radius raises
`TypeError`: the first keyword that is not a `RenderSettings` field is
`sign_glyph_scale`. -/
theorem build_settings_type_error (meta : RenderFrameMeta)
    (config : AppConfigSlice) (design : DesignSettings) (font_scale : ℝ)
    (h : 0 < meta.ring_outer) :
    build_settings meta config design font_scale
      = .error
          "TypeError: __init__() got an unexpected keyword argument sign_glyph_scale" := by
  simp only [build_settings]
  rw [if_neg (not_le.mpr h)]
  rfl

/-- Witness for `build_settings_type_error` at concrete inputs (the lemma is
shared by several claims; its hypothesis is exercised here once). -/
theorem build_settings_type_error_witness :
    (0 : ℝ) < (RenderFrameMeta.mk 1000 1000 500 500 380 500).ring_outer ∧
      build_settings (RenderFrameMeta.mk 1000 1000 500 500 380 500)
          (AppConfigSlice.mk 0.75 0.92 0.08 "path") design_from_layout_none 1
        = .error
            "TypeError: __init__() got an unexpected keyword argument sign_glyph_scale" :=
  ⟨by norm_num,
    build_settings_type_error (RenderFrameMeta.mk 1000 1000 500 500 380 500)
      (AppConfigSlice.mk 0.75 0.92 0.08 "path") design_from_layout_none 1
      (by norm_num)⟩

open Classical in
/-- The sort key of rendering.py line 738 (`sorted(elements, key=lambda
item: (item.theta_deg, item.element_id))`) as a stable merge-sort
predicate. -/
def element_sort_le (a b : AutoLayoutElement) : Bool :=
  if a.theta_deg < b.theta_deg then true
  else if b.theta_deg < a.theta_deg then false
  else decide (a.element_id ≤ b.element_id)

/-- `_compute_auto_layout_overrides_from_meta` (rendering.py lines 703-777)
in full, the raising `_build_settings` step (line 711) included: build the
default design, construct the settings — this raises `TypeError`, because
`sign_glyph_scale` is not a `RenderSettings` field — and only on the
unreachable success path build the per-planet elements, sort them and run
the greedy pass (`auto_layout_overrides`).  `planets` is the
`(name, longitude)` list of `_build_chart(chart).planets`. -/
def compute_auto_layout_overrides_from_meta (meta : RenderFrameMeta)
    (planets : List (String × ℝ)) (config : AppConfigSlice) (min_gap_px : ℝ) :
    Except String (List (String × DrDt)) :=
  let design := design_from_layout_none
  match build_settings meta config design 1 with
  | .error e => .error e
  | .ok settings =>
    let glyph_font := 60 * settings.font_scale
    let ring_radius := settings.radius * settings.planet_ring_ratio
    let elements := planets.map fun p =>
      planet_element p.1 p.2 meta.chart_center_x meta.chart_center_y ring_radius
        glyph_font
    let sorted_elements := elements.mergeSort element_sort_le
    .ok (auto_layout_overrides sorted_elements glyph_font min_gap_px ring_radius)

/-- The concrete validated frame metadata used by the resolver and cache
claims: a 1000x1000 canvas, chart center (500, 500), ring radii 380/500. -/
def sample_frame_meta : RenderFrameMeta := ⟨1000, 1000, 500, 500, 380, 500⟩

/-- The `AppConfig` defaults of `zodiac_art/config.py` (lines 21-30). -/
def sample_app_config : AppConfigSlice := ⟨0.75, 0.92, 0.08, "path"⟩

/-- `build_settings_type_error` at the sample metadata, shared below. -/
theorem build_settings_sample_error (design : DesignSettings) (font_scale : ℝ) :
    build_settings sample_frame_meta sample_app_config design font_scale
      = .error
          "TypeError: __init__() got an unexpected keyword argument sign_glyph_scale" :=
  build_settings_type_error sample_frame_meta sample_app_config design font_scale
    (by norm_num [sample_frame_meta])

/-- C1 (code bug): for the two-coincident-planets chart the resolver does
not return any override map, let alone exactly one non-zero entry:
`_compute_auto_layout_overrides_from_meta` raises `TypeError` at its
`_build_settings` call (rendering.py line 711), because `_build_settings`
passes `sign_glyph_scale=`/`planet_glyph_scale=` to the `RenderSettings`
dataclass of `svg_chart.py`, which has no such fields — the same stale
dataclass class of bug as C4.  The error fires before a single element is
built. -/
theorem auto_layout_coincident_pair_build_settings_error :
    compute_auto_layout_overrides_from_meta sample_frame_meta
        [("A", 90), ("B", 90)] sample_app_config 0
      = .error
          "TypeError: __init__() got an unexpected keyword argument sign_glyph_scale"
      ∧ ∀ overrides, compute_auto_layout_overrides_from_meta sample_frame_meta
          [("A", 90), ("B", 90)] sample_app_config 0 ≠ .ok overrides := by
  have h := build_settings_sample_error design_from_layout_none 1
  exact ⟨by simp [compute_auto_layout_overrides_from_meta, h],
    fun overrides => by simp [compute_auto_layout_overrides_from_meta, h]⟩

/-- C5 (code bug): the resolver never returns the empty override map for
angularly separated elements — it never returns at all: for EVERY planet
list (separated or not) and every gap, the call raises `TypeError` in
`_build_settings` (rendering.py line 711, `sign_glyph_scale` is not a
`RenderSettings` field), so the pre-filter is never reached. -/
theorem auto_layout_far_pairs_build_settings_error
    (planets : List (String × ℝ)) (min_gap_px : ℝ) :
    compute_auto_layout_overrides_from_meta sample_frame_meta planets
        sample_app_config min_gap_px
      = .error
          "TypeError: __init__() got an unexpected keyword argument sign_glyph_scale" := by
  have h := build_settings_sample_error design_from_layout_none 1
  simp [compute_auto_layout_overrides_from_meta, h]

/-- C6 (code bug): idempotence cannot even be exercised.  The first run on
the coincident pair raises `TypeError` in `_build_settings` (rendering.py
line 711) instead of producing resolved positions, and a re-run on ANY
rebased planet list raises the same error, so no run ever yields a map to
compare. -/
theorem auto_layout_rerun_build_settings_error :
    compute_auto_layout_overrides_from_meta sample_frame_meta
        [("A", 90), ("B", 90)] sample_app_config 0
      = .error
          "TypeError: __init__() got an unexpected keyword argument sign_glyph_scale"
      ∧ ∀ (rebased : List (String × ℝ)) (min_gap_px : ℝ),
        compute_auto_layout_overrides_from_meta sample_frame_meta rebased
            sample_app_config min_gap_px
          = .error
              "TypeError: __init__() got an unexpected keyword argument sign_glyph_scale" := by
  have h := build_settings_sample_error design_from_layout_none 1
  exact ⟨by simp [compute_auto_layout_overrides_from_meta, h],
    fun rebased min_gap_px => by simp [compute_auto_layout_overrides_from_meta, h]⟩

/-- C7 (code bug): the claimed invariants are about the resolver's returned
map, but the resolver never returns one: with no elements the result is the
`TypeError` from `_build_settings` (rendering.py line 711), not the empty
map, and no planet list or gap ever produces an `ok` result whose entries
could satisfy (or violate) the dt/dr invariants. -/
theorem auto_layout_invariants_build_settings_error :
    (compute_auto_layout_overrides_from_meta sample_frame_meta []
          sample_app_config 0
        = .error
            "TypeError: __init__() got an unexpected keyword argument sign_glyph_scale"
      ∧ compute_auto_layout_overrides_from_meta sample_frame_meta []
          sample_app_config 0 ≠ .ok [])
      ∧ ∀ (planets : List (String × ℝ)) (min_gap_px : ℝ)
          (overrides : List (String × DrDt)),
        compute_auto_layout_overrides_from_meta sample_frame_meta planets
            sample_app_config min_gap_px ≠ .ok overrides := by
  have h := build_settings_sample_error design_from_layout_none 1
  refine ⟨⟨by simp [compute_auto_layout_overrides_from_meta, h], ?_⟩, ?_⟩
  · simp [compute_auto_layout_overrides_from_meta, h]
  · intro planets min_gap_px overrides
    simp [compute_auto_layout_overrides_from_meta, h]

/-- The slice of `RenderContext` that the cached render calls read. -/
structure RenderContextSlice where
  settings : RenderSettings
  frame_circle : Option FrameCircle
  cache_key : FrameContextKeyParts

/-- `_build_frame_render_context` (rendering.py lines 276-331): the steps
that can raise, in source order — `_frame_circle_from_layout` (line 293),
then `_build_settings` (line 307) — run BEFORE the context cache key (lines
309-316) is computed.  `i` bundles the resolved inputs (chart identity and
payloads) the key would hash; `design` is the outcome of
`_design_from_layout(layout, design_override)`. -/
def build_frame_render_context (i : FrameRenderInputs) (meta : RenderFrameMeta)
    (layout : Option (List (String × PyVal))) (image_size : ℚ × ℚ)
    (config : AppConfigSlice) (design : DesignSettings) :
    Except String RenderContextSlice :=
  match frame_circle_from_layout layout image_size with
  | .error e => .error e
  | .ok fc =>
    match build_settings meta config design 1 with
    | .error e => .error e
    | .ok settings => .ok ⟨settings, fc, frame_context_cache_key i⟩

/-- `render_chart_svg` (rendering.py lines 565-599) in full: build the
context — which raises `TypeError` in `_build_settings` before the context
cache key exists — and only on the unreachable success path run the caching
skeleton `render_chart_svg_model` (key, lookup, compute, store).  The error
outcome returns the module caches untouched with no computation run. -/
def render_chart_svg_run (max_entries : Int) (compute : FrameRenderInputs → String)
    (st : RenderCacheState) (meta : RenderFrameMeta)
    (layout : Option (List (String × PyVal))) (image_size : ℚ × ℚ)
    (config : AppConfigSlice) (design : DesignSettings) (i : FrameRenderInputs) :
    Except String String × RenderCacheState × Bool :=
  match build_frame_render_context i meta layout image_size config design with
  | .error e => (.error e, st, false)
  | .ok _ =>
    let r := render_chart_svg_model max_entries compute st i
    (.ok r.1, r.2.1, r.2.2)

/-- The default layout of line 291: `{"overrides": {}}` (no `frame_circle`
entry, so `_frame_circle_from_layout` returns `None` and line 307 is
reached). -/
def default_overrides_layout : Option (List (String × PyVal)) :=
  some [("overrides", PyVal.dict [])]

/-- C3 (code bug): no render call ever reaches the render cache.
`_build_frame_render_context` raises `TypeError` in `_build_settings`
(rendering.py line 307, `sign_glyph_scale` is not a field of the stale
`RenderSettings` dataclass) before the context cache key at line 309 exists,
so `render_chart_svg` propagates the error with the caches untouched and the
underlying computation never run; a second byte-identical call raises
identically — there is no one-computation-plus-hit behaviour, and no key
exists for any field change (mtime included) to miss on. -/
theorem render_chart_svg_build_settings_error (max_entries : Int)
    (compute : FrameRenderInputs → String) (st : RenderCacheState)
    (design : DesignSettings) (i : FrameRenderInputs) :
    render_chart_svg_run max_entries compute st sample_frame_meta
        default_overrides_layout (1000, 1000) sample_app_config design i
      = (.error
            "TypeError: __init__() got an unexpected keyword argument sign_glyph_scale",
          st, false)
      ∧ render_chart_svg_run max_entries compute
          (render_chart_svg_run max_entries compute st sample_frame_meta
            default_overrides_layout (1000, 1000) sample_app_config design i).2.1
          sample_frame_meta default_overrides_layout (1000, 1000) sample_app_config
          design i
        = (.error
              "TypeError: __init__() got an unexpected keyword argument sign_glyph_scale",
            st, false) := by
  have hfc : frame_circle_from_layout default_overrides_layout (1000, 1000)
      = .ok Option.none := rfl
  have hbs := build_settings_sample_error design 1
  have h1 : render_chart_svg_run max_entries compute st sample_frame_meta
      default_overrides_layout (1000, 1000) sample_app_config design i
      = (.error
            "TypeError: __init__() got an unexpected keyword argument sign_glyph_scale",
          st, false) := by
    simp [render_chart_svg_run, build_frame_render_context, hfc, hbs]
  exact ⟨h1, by rw [h1]; exact h1⟩

end BuildSettings
